import Mathlib

/-!
Verification of the lkml-bot core pipeline: a shallow embedding, in Lean 4, of
the message classifier, the feed-entry date filter, the patch-card creation
pipeline, the filter engine and the reply-hierarchy builder, translated from
the Python sources under `src/lkml/`.

Strings are modelled as `List Char` (the sources only use ASCII operations:
lower-casing, substring tests, splitting).  Nullable Python values are
`Option`; Python truthiness of an optional string (`None` and `""` are falsy)
is `optFalsy`.  Database rows are lists of records; async repository lookups
become explicit parameters.
-/

namespace Lkml

/-- Strings of the model: lists of characters. -/
abbrev Str := List Char

/-- ASCII lower-casing of one character, as Python `str.lower` acts on the
ASCII subjects the feed delivers. -/
def toLowerC (c : Char) : Char :=
  if 65 ≤ c.toNat ∧ c.toNat ≤ 90 then Char.ofNat (c.toNat + 32) else c

/-- Lower-case a string (Python `s.lower()`). -/
def lowerStr (s : Str) : Str := s.map toLowerC

/-- Python `n in h`: `n` occurs as a contiguous substring of `h`. -/
def substr (n : Str) : Str → Bool
  | [] => n.isEmpty
  | c :: t => List.isPrefixOf n (c :: t) || substr n t

/-- Word character of the `re` module's `\w` on ASCII text:
letters, digits and the underscore. -/
def isWordC (c : Char) : Bool := c.isAlphanum || c == '_'

/-- Word-character test on the character preceding the current scan position
(`none` at the start of the text, where `\b` holds before a word char). -/
def isWordOpt : Option Char → Bool
  | none => false
  | some c => isWordC c

/-- Whether the first character of `s` is a word character (the text ends in
a `\b` when `s` is empty or starts with a non-word character). -/
def headIsWord : Str → Bool
  | [] => false
  | c :: _ => isWordC c

/-- Numeric value of a decimal digit string, as Python `int(...)` computes it
on the digit groups the regexes capture. -/
def digitsVal (ds : Str) : Nat := ds.foldl (fun a c => 10 * a + (c.toNat - 48)) 0

/-- Python truthiness of an optional string: `None` and `""` are falsy. -/
def optFalsy : Option Str → Bool
  | none => true
  | some s => s.isEmpty

/-- Split `s` at its first `']'`: the part before it and the part after it;
`none` when `s` has no `']'`.  This is how `[^\]]*` delimits the content of a
bracket in `re.search` of a pattern starting with a literal `[`. -/
def splitAtRBracket : Str → Option (Str × Str)
  | [] => none
  | c :: t =>
    if c = ']' then some ([], t)
    else (splitAtRBracket t).map (fun p => (c :: p.1, p.2))

/-- The content captured by the leftmost match of the case-insensitive regex
of `feed_message_classifier.parse_patch_subject`, line 122:
a bracket `[...]` whose content (everything up to the first following `']'`)
contains the word PATCH.  Scanning is leftmost, as `re.search` is. -/
def firstBracketPatchContent : Str → Option Str
  | [] => none
  | c :: t =>
    if c = '[' then
      match splitAtRBracket t with
      | some (content, _) =>
        if substr (("patch").toList) (lowerStr content) then some content
        else firstBracketPatchContent t
      | none => firstBracketPatchContent t
    else firstBracketPatchContent t

/-- Leftmost match of the case-insensitive regex searching a version number
in `parse_patch_subject`, line 129: a `v` at a word boundary followed by a
maximal nonempty digit run ending at a word boundary.  Returns the captured
digit group.  `prev` is the character before the scan position. -/
def findVersion : Option Char → Str → Option Str
  | _, [] => none
  | prev, c :: t =>
    if (c == 'v' || c == 'V') && !(isWordOpt prev) then
      let ds := t.takeWhile Char.isDigit
      if !ds.isEmpty && !(headIsWord (t.dropWhile Char.isDigit)) then some ds
      else findVersion (some c) t
    else findVersion (some c) t

/-- Leftmost match of the index/total regex of `parse_patch_subject`,
line 134: two digit groups around a `/`, flanked by word boundaries.  Returns
the numeric values of the two captured groups. -/
def findIndexTotal : Option Char → Str → Option (Nat × Nat)
  | _, [] => none
  | prev, c :: t =>
    if c.isDigit && !(isWordOpt prev) then
      match t.dropWhile Char.isDigit with
      | '/' :: r2 =>
        let ds2 := r2.takeWhile Char.isDigit
        if !ds2.isEmpty && !(headIsWord (r2.dropWhile Char.isDigit)) then
          some (digitsVal (c :: t.takeWhile Char.isDigit), digitsVal ds2)
        else findIndexTotal (some c) t
      | _ => findIndexTotal (some c) t
    else findIndexTotal (some c) t

/-- PATCH subject information (`feed/types.PatchInfo`). -/
structure PatchInfo where
  is_patch : Bool := false
  version : Option Str := none
  index : Option Nat := none
  total : Option Nat := none
  is_cover_letter : Bool := false
deriving DecidableEq

/-- Translation of `feed_message_classifier.parse_patch_subject`
(lines 87-142).  The keyword gate sets `is_patch` as soon as the lowered
subject contains the word `patch` and a `[` anywhere, or starts with
`patch:`; the bracket content, version and index/total extraction follow the
three `re.search` calls of the source. -/
def parse_patch_subject (subject : Str) : PatchInfo :=
  let subject_lower := lowerStr subject
  let has_patch_keyword :=
    (substr (("patch").toList) subject_lower && subject_lower.contains '[')
    || List.isPrefixOf (("patch:").toList) subject_lower
  if !has_patch_keyword then {}
  else
    match firstBracketPatchContent subject with
    | none => { is_patch := true }
    | some bracket_content =>
      let version := (findVersion none bracket_content).map (fun ds => 'v' :: ds)
      match findIndexTotal none bracket_content with
      | some (i, t) =>
        { is_patch := true, version := version, index := some i, total := some t,
          is_cover_letter := i == 0 }
      | none => { is_patch := true, version := version }

/-- Result of classification (`feed/types.MessageClassification`; the unused
`has_error`/`error_message` fields are omitted). -/
structure MessageClassification where
  is_patch : Bool := false
  is_reply : Bool := false
  is_series_patch : Bool := false
  patch_info : Option PatchInfo := none
  series_message_id : Option Str := none
deriving DecidableEq

/-- Translation of `feed_message_classifier.classify_message` (lines 16-84):
a `re:` prefix wins and yields a REPLY; otherwise the parsed `PatchInfo`
decides PATCH vs other, and `total ≥ 1` together with the presence of
`in_reply_to_header` splits series cover letter / series sub-patch /
single PATCH. -/
def classify_message (subject : Str) (in_reply_to_header : Option Str)
    (message_id_header : Option Str) : MessageClassification :=
  if List.isPrefixOf (("re:").toList) (lowerStr subject) then { is_reply := true }
  else
    let pi := parse_patch_subject subject
    if !pi.is_patch then {}
    else if (match pi.total with | some t => decide (1 ≤ t) | none => false) then
      if optFalsy in_reply_to_header then
        { is_patch := true, is_series_patch := true,
          patch_info := some { pi with is_cover_letter := true },
          series_message_id := message_id_header }
      else
        { is_patch := true, is_series_patch := true,
          patch_info := some { pi with is_cover_letter := false },
          series_message_id := in_reply_to_header }
    else
      { is_patch := true, is_series_patch := false,
        patch_info := some { pi with is_cover_letter := false } }

/-- Python `a or b` on an optional string: `b` when `a` is `None` or empty. -/
def orElseStr (o : Option Str) (d : Str) : Str :=
  match o with
  | none => d
  | some s => if s.isEmpty then d else s

/-- Service-layer feed message (`service/types.FeedMessage`, mirrored by the
repository's `FeedMessageData`); one row per observed email.  Fields default
to empty/none so concrete rows can list only what a claim touches. -/
structure FeedMessage where
  subsystem_name : Str := []
  message_id : Str := []
  message_id_header : Str := []
  in_reply_to_header : Option Str := none
  subject : Str := []
  author : Str := []
  author_email : Str := []
  content : Option Str := none
  url : Option Str := none
  received_at : Option Nat := none
  is_patch : Bool := false
  is_reply : Bool := false
  is_series_patch : Bool := false
  patch_version : Option Str := none
  patch_index : Option Nat := none
  patch_total : Option Nat := none
  is_cover_letter : Bool := false
  series_message_id : Option Str := none
  matched_filters : List Str := []
deriving DecidableEq

/-- Translation of `feed.FeedProcessor._build_service_feed_message`
(lines 338-370): denormalise a classification onto the stored row.
`message_id_header or message_id` and `email or "unknown@example.com"`
follow Python truthiness. -/
def build_service_feed_message (subsystem_name : Str) (email : Option Str)
    (received_at : Option Nat) (message_id : Str)
    (message_id_header : Option Str) (in_reply_to_header : Option Str)
    (subject : Str) (author : Str) (content : Option Str) (url : Option Str)
    (cls : MessageClassification) : FeedMessage :=
  { subsystem_name := subsystem_name
    message_id := message_id
    message_id_header := orElseStr message_id_header message_id
    in_reply_to_header := in_reply_to_header
    subject := subject
    author := author
    author_email := orElseStr email (("unknown@example.com").toList)
    content := content
    url := url
    received_at := received_at
    is_patch := cls.is_patch
    is_reply := cls.is_reply
    is_series_patch := cls.is_series_patch
    patch_version := cls.patch_info.bind (fun p => p.version)
    patch_index := cls.patch_info.bind (fun p => p.index)
    patch_total := cls.patch_info.bind (fun p => p.total)
    is_cover_letter := match cls.patch_info with
      | some p => p.is_cover_letter
      | none => false
    series_message_id := cls.series_message_id }

/-- A raw feed entry as `_filter_entries_by_date` sees it: only the parsed
`updated` timestamp matters (`none` models a missing/unparseable
`updated_parsed`).  Timestamps are modelled as naturals. -/
structure RawFeedEntry where
  updated : Option Nat := none
deriving DecidableEq

/-- Translation of `feed.FeedProcessor._filter_entries_by_date`
(lines 121-138): keep entries while they are strictly newer than the
high-water mark or lack a timestamp; the loop `break`s at the first entry
whose timestamp is older than or equal to the mark. -/
def filter_entries_by_date (mark : Nat) : List RawFeedEntry → List RawFeedEntry
  | [] => []
  | e :: es =>
    match e.updated with
    | none => e :: filter_entries_by_date mark es
    | some t => if mark < t then e :: filter_entries_by_date mark es else []

/-- Modelled from the spec (claim C5's reading of §4.1): the set of entries
the claim says `_filter_entries_by_date` returns — every entry strictly
newer than the mark plus every entry without a parseable timestamp,
independent of list order. -/
def kept_entries_per_claim (mark : Nat) (entries : List RawFeedEntry) :
    List RawFeedEntry :=
  entries.filter (fun e =>
    match e.updated with
    | none => true
    | some t => decide (mark < t))

/-- A single filter condition value from the `filter_conditions` JSON blob:
a pattern string, a list of pattern strings (non-string list elements are
skipped by the source and omitted here), or a value of any other type. -/
inductive FilterCond where
  | str (s : Str)
  | strs (l : List Str)
  | other
deriving DecidableEq

/-- A filter rule group (`db/repo.PatchCardFilterData`); the unused
`id`/`description`/`created_by` fields are omitted. -/
structure PatchCardFilterData where
  name : Str := []
  enabled : Bool := true
  filter_conditions : List (Str × FilterCond) := []
deriving DecidableEq

/-- Effects the filter engine calls out to: `regex_search pat v ci` abstracts
`re.search(pat, v, re.IGNORECASE if ci else 0)`, and `cc_match` abstracts the
async `_match_cc_condition` (repository lookups plus an HTTP CC-list fetch).
The claims under verification do not depend on either. -/
structure FilterEnv where
  regex_search : Str → Str → Bool → Bool
  cc_match : FeedMessage → FilterCond → Bool

/-- Translation of `PatchCardFilterService._parse_regex_pattern`
(lines 107-126): `/rx/` is a case-sensitive regex, `/rx/i` case-insensitive,
anything else is not a regex. -/
def parse_regex_pattern (p : Str) : Option Str × Bool :=
  if !(List.isPrefixOf (("/").toList) p) then (none, false)
  else if List.isSuffixOf (("/i").toList) p then (some ((p.drop 1).dropLast.dropLast), true)
  else if List.isSuffixOf (("/").toList) p then (some ((p.drop 1).dropLast), false)
  else (none, false)

/-- Translation of `PatchCardFilterService._match_single_pattern`
(lines 128-143): regex when the pattern parses as one, otherwise
case-insensitive substring. -/
def match_single_pattern (env : FilterEnv) (val pat : Str) : Bool :=
  match parse_regex_pattern pat with
  | (some rx, ci) => env.regex_search rx val ci
  | (none, _) => substr (lowerStr pat) (lowerStr val)

/-- Translation of `PatchCardFilterService._match_value` (lines 145-166):
empty values never match; list conditions are OR, any other condition type
matches. -/
def match_value (env : FilterEnv) (val : Str) (cond : FilterCond) : Bool :=
  if val.isEmpty then false
  else
    match cond with
    | .str s => match_single_pattern env val s
    | .strs l => l.any (fun c => match_single_pattern env val c)
    | .other => true

/-- Translation of `PatchCardFilterService._match_condition` (lines 241-276):
dispatch on the filter type; `keywords` matches the content (absent content
never matches), `cclist`/`cc` goes through the environment, the plain fields
map directly, unknown types never match. -/
def match_condition (env : FilterEnv) (m : FeedMessage) (filter_type : Str)
    (cond : FilterCond) : Bool :=
  if filter_type = ("keywords").toList then
    match m.content with
    | some c => if c.isEmpty then false else match_value env c cond
    | none => false
  else if filter_type = ("cclist").toList ∨ filter_type = ("cc").toList then
    env.cc_match m cond
  else if filter_type = ("author").toList then match_value env m.author cond
  else if filter_type = ("author_email").toList then match_value env m.author_email cond
  else if filter_type = ("subsys").toList ∨ filter_type = ("subsystem").toList then
    match_value env m.subsystem_name cond
  else if filter_type = ("subject").toList then match_value env m.subject cond
  else false

/-- Translation of `PatchCardFilterService._matches_filter` (lines 278-299):
the conditions of one rule group are ANDed; an empty conditions map matches
vacuously. -/
def matches_filter (env : FilterEnv) (m : FeedMessage)
    (f : PatchCardFilterData) : Bool :=
  f.filter_conditions.all (fun p => match_condition env m p.1 p.2)

/-- Translation of `PatchCardFilterService.should_create_patch_card`
(lines 42-105).  `all_filters` is the repository content; the source fetches
with `enabled_only=True`, modelled by the initial `filter`.  With no enabled
filter the function allows creation before ever looking at
`exclusive_mode`. -/
def should_create_patch_card (env : FilterEnv) (exclusive_mode : Bool)
    (all_filters : List PatchCardFilterData) (m : FeedMessage) :
    Bool × List Str :=
  let filters := all_filters.filter (fun f => f.enabled)
  if filters.isEmpty then (true, [])
  else
    let matched := (filters.filter (fun f => matches_filter env m f)).map
      (fun f => f.name)
    if exclusive_mode then
      if !matched.isEmpty then (true, matched) else (false, [])
    else if !matched.isEmpty then (true, matched)
    else (true, [])

/-- Derivation of the `exclusive_mode` local of `should_create_patch_card`
(lines 77-79): it is `False` unless the service was constructed with a
`filter_config_repo`, in which case it is the stored global flag that
`FilterConfigRepository.get_exclusive_mode` returns.  The optional argument
models the constructor's `filter_config_repo` as the flag that repository
would return. -/
def exclusive_mode_local : Option Bool → Bool
  | none => false
  | some stored => stored

/-- Translation of `FeedMessageService._should_create_patch_card`
(lines 730-764): the feed ingestion path constructs
`PatchCardFilterService(filter_repo)` with `filter_config_repo = None`
(line 753), so the `exclusive_mode` local of `should_create_patch_card` is
always `False` at this — the method's only — call site, and the stored
global flag never reaches it. -/
def feed_should_create_patch_card (env : FilterEnv)
    (all_filters : List PatchCardFilterData) (m : FeedMessage) :
    Bool × List Str :=
  should_create_patch_card env (exclusive_mode_local none) all_filters m

/-- The deletion loop of `PatchCardFilterService.remove_types_from_rule_group`
(lines 686-690): delete each listed type present in the conditions dict and
count the deletions. -/
def remove_types_loop (conds : List (Str × FilterCond)) :
    List Str → List (Str × FilterCond) × Nat
  | [] => (conds, 0)
  | t :: ts =>
    if conds.any (fun p => p.1 == t) then
      let r := remove_types_loop (conds.filter (fun p => p.1 != t)) ts
      (r.1, r.2 + 1)
    else remove_types_loop conds ts

/-- Translation of `PatchCardFilterService.remove_types_from_rule_group`
(lines 667-708): the lookup by name and the repository update are abstracted
(the found group is the argument, the updated group the result); when no
listed type was present the operation returns `none`, otherwise the group
survives with the remaining — possibly empty — conditions map. -/
def remove_types_from_rule_group (f : PatchCardFilterData)
    (filter_types : List Str) : Option PatchCardFilterData :=
  let r := remove_types_loop f.filter_conditions filter_types
  if r.2 = 0 then none
  else some { f with filter_conditions := r.1 }

/-- One row of a cover letter's series listing
(`service/types.SeriesPatchInfo`, fields as constructed by the sources). -/
structure SeriesPatchInfo where
  subject : Str := []
  url : Str := []
  message_id : Str := []
  patch_index : Nat := 0
  patch_total : Nat := 0
deriving DecidableEq

/-- Sort key order of the SQL `ORDER BY patch_index, received_at` used by the
series queries.  SQLite puts NULLs first in ascending order; `getD 0` agrees
whenever the compared values are present, which the series hypotheses of the
claims guarantee. -/
def seriesOrder (a b : FeedMessage) : Prop :=
  a.patch_index.getD 0 < b.patch_index.getD 0
  ∨ (a.patch_index.getD 0 = b.patch_index.getD 0
     ∧ a.received_at.getD 0 ≤ b.received_at.getD 0)

instance : DecidableRel seriesOrder := fun a b => by
  unfold seriesOrder; infer_instance

/-- Python `list.sort(key=lambda x: x.patch_index)` order on series rows. -/
def byPatchIndex (a b : SeriesPatchInfo) : Prop := a.patch_index ≤ b.patch_index

instance : DecidableRel byPatchIndex := fun a b => by
  unfold byPatchIndex; infer_instance

/-- Translation of `FeedMessageRepository.find_by_series_message_id`
(lines 214-230): all rows whose `series_message_id` equals the given id,
ordered by `(patch_index, received_at)`. -/
def find_by_series_message_id (store : List FeedMessage) (sid : Str) :
    List FeedMessage :=
  List.insertionSort seriesOrder
    (store.filter (fun m => m.series_message_id == some sid))

/-- Translation of `FeedMessageRepository.find_series_patches`
(lines 265-288): the cover letter row itself (`message_id_header ==
series_message_id`) or any row of the series, restricted to PATCHes, ordered
by `(patch_index, received_at)`. -/
def find_series_patches (store : List FeedMessage) (sid : Str) :
    List FeedMessage :=
  List.insertionSort seriesOrder
    (store.filter (fun m =>
      (m.message_id_header == sid || m.series_message_id == some sid)
      && m.is_patch))

/-- Translation of `FeedMessageService._get_series_patches_for_cover_letter`
(lines 251-274): for a cover letter, collect the stored series rows, drop
index 0 and the cover letter's own row, and sort by `patch_index`. -/
def get_series_patches_for_cover_letter (store : List FeedMessage)
    (feed_message sfm : FeedMessage) (series_message_id : Option Str)
    (patch_info : Option PatchInfo) : List SeriesPatchInfo :=
  if !(sfm.is_cover_letter && !(optFalsy series_message_id)) then []
  else
    let sub_patches := find_by_series_message_id store (series_message_id.getD [])
    List.insertionSort byPatchIndex
      ((sub_patches.filter (fun p =>
          p.patch_index != some 0
          && p.message_id_header != feed_message.message_id_header)).map
        (fun p =>
          { subject := p.subject
            url := p.url.getD []
            message_id := p.message_id_header
            patch_index := p.patch_index.getD 0
            patch_total := match patch_info with
              | some pi => pi.total.getD 0
              | none => 0 }))

/-- Translation of `PatchCardService._build_series_patches_info`
(lines 243-279): each row's index and total are re-parsed from its
subject. -/
def build_series_patches_info (msgs : List FeedMessage) :
    List SeriesPatchInfo :=
  msgs.map (fun msg =>
    let pi := parse_patch_subject msg.subject
    { subject := msg.subject
      patch_index := pi.index.getD 0
      patch_total := pi.total.getD 0
      message_id := msg.message_id_header
      url := msg.url.getD [] })

/-- Translation of `PatchCardService.get_series_patches` (lines 211-241):
query the whole series from `feed_messages` and rebuild the listing from the
subjects. -/
def get_series_patches (store : List FeedMessage) (sid : Str) :
    List SeriesPatchInfo :=
  let msgs := find_series_patches store sid
  if msgs.isEmpty then [] else build_series_patches_info msgs

/-- Translation of `FeedMessageService._convert_to_service_feed_message`
(lines 766-805): the service row recomputes `is_series_patch` as
`series_message_id is not None and patch_total > 1` and takes the
patch fields from the parsed `PatchInfo`. -/
def convert_to_service_feed_message (fm : FeedMessage)
    (patch_info : Option PatchInfo) (series_message_id : Option Str) :
    FeedMessage :=
  let is_series := match patch_info with
    | some pi =>
      series_message_id.isSome
      && (match pi.total with | some t => decide (1 < t) | none => false)
    | none => false
  { fm with
    is_series_patch := is_series
    patch_version := patch_info.bind (fun p => p.version)
    patch_index := patch_info.bind (fun p => p.index)
    patch_total := patch_info.bind (fun p => p.total)
    is_cover_letter := match patch_info with
      | some pi => pi.is_cover_letter
      | none => false
    series_message_id := series_message_id
    matched_filters := [] }

/-- A surfaced patch card (`service/types.PatchCard`); timestamps are
naturals, the platform ids are filled in only after a successful send. -/
structure PatchCard where
  message_id_header : Str := []
  subsystem_name : Str := []
  platform_message_id : Str := []
  platform_channel_id : Str := []
  subject : Str := []
  author : Str := []
  url : Option Str := none
  expires_at : Option Nat := none
  is_series_patch : Bool := false
  series_message_id : Option Str := none
  patch_version : Option Str := none
  patch_index : Option Nat := none
  patch_total : Option Nat := none
  has_thread : Bool := false
  is_cover_letter : Bool := false
  series_patches : List SeriesPatchInfo := []
  matched_filters : List Str := []
deriving DecidableEq

/-- Translation of `FeedMessageService._build_temp_patch_card`
(lines 276-305): the card constructed for rendering, sending and
persistence. -/
def build_temp_patch_card (feed_message sfm : FeedMessage)
    (series_message_id : Option Str) (patch_info : Option PatchInfo)
    (series_patches : List SeriesPatchInfo) : PatchCard :=
  { message_id_header := feed_message.message_id_header
    subsystem_name := feed_message.subsystem_name
    platform_message_id := []
    platform_channel_id := []
    subject := feed_message.subject
    author := feed_message.author
    url := feed_message.url
    expires_at := feed_message.received_at
    is_series_patch := sfm.is_series_patch
    series_message_id := series_message_id
    patch_version := patch_info.bind (fun p => p.version)
    patch_index := patch_info.bind (fun p => p.index)
    patch_total := patch_info.bind (fun p => p.total)
    has_thread := false
    is_cover_letter := sfm.is_cover_letter
    series_patches := series_patches
    matched_filters := sfm.matched_filters }

/-- Translation of `FeedMessageService._process_patch_message`
(lines 78-194) composed with `_create_and_send_patch_card`: decide whether a
PATCH yields a card and construct it.  `card_exists` models the
`patch_cards` lookups (the two lookups of the source see the same
single-threaded store), `sender_configured` the injected sender; the
platform send and the database save — which only copy the constructed card —
are abstracted away, so the result is the card built by
`_build_temp_patch_card` or `none` when the message is skipped.  The filter
check goes through `_should_create_patch_card`, whose filter service carries
no `filter_config_repo`. -/
def process_patch_message (env : FilterEnv)
    (filters : List PatchCardFilterData) (store : List FeedMessage)
    (card_exists sender_configured : Bool)
    (feed_message : FeedMessage) (cls : MessageClassification) :
    Option PatchCard :=
  if feed_message.message_id_header.isEmpty then none
  else if card_exists then none
  else if !sender_configured then none
  else
    let patch_info := cls.patch_info
    if !(optFalsy cls.series_message_id) && patch_info.isSome
       && !(((patch_info.map (fun p => p.is_cover_letter)).getD false)
            || feed_message.is_cover_letter
            || (patch_info.bind (fun p => p.index) == some 0)) then none
    else
      let sfm0 := convert_to_service_feed_message feed_message patch_info
        cls.series_message_id
      let sc := feed_should_create_patch_card env filters sfm0
      if !sc.1 then none
      else
        let sfm := if !sc.2.isEmpty then { sfm0 with matched_filters := sc.2 }
          else sfm0
        let series_patches := get_series_patches_for_cover_letter store
          feed_message sfm cls.series_message_id patch_info
        some (build_temp_patch_card feed_message sfm cls.series_message_id
          patch_info series_patches)

/-- Translation of `FeedMessageService.process_email_message` (lines 56-74):
PATCHes go through `_process_patch_message`; REPLY processing never creates
a card. -/
def process_email_message (env : FilterEnv)
    (filters : List PatchCardFilterData) (store : List FeedMessage)
    (card_exists sender_configured : Bool)
    (feed_message : FeedMessage) (cls : MessageClassification) :
    Option PatchCard :=
  if cls.is_patch then
    process_patch_message env filters store card_exists
      sender_configured feed_message cls
  else none

/-- A filter environment with inert effects, used by concrete witnesses. -/
def trivEnv : FilterEnv :=
  { regex_search := fun _ _ _ => false, cc_match := fun _ _ => false }

/-- Python `str.strip()`: drop whitespace from both ends. -/
def pyStrip (s : Str) : Str :=
  ((s.dropWhile Char.isWhitespace).reverse.dropWhile Char.isWhitespace).reverse

/-- Python `str.split()` with no separator: maximal nonempty runs of
non-whitespace characters. -/
def splitWS : Str → List Str
  | [] => []
  | c :: t =>
    if c.isWhitespace then splitWS t
    else (c :: t.takeWhile (fun x => !x.isWhitespace))
      :: splitWS (t.dropWhile (fun x => !x.isWhitespace))
termination_by s => s.length
decreasing_by
  all_goals simp only [List.length_cons]
  · omega
  · have := (List.IsSuffix.sublist
      (List.dropWhile_suffix (l := t) (fun x => !x.isWhitespace))).length_le
    omega

/-- Translation of `thread_service._extract_message_id_from_header`
(lines 56-81): strip, peel one pair of angle brackets, take the first
whitespace-separated token. -/
def extract_message_id_from_header (in_reply_to_header : Option Str) :
    Option Str :=
  if optFalsy in_reply_to_header then none
  else
    let cleaned := pyStrip (in_reply_to_header.getD [])
    let cleaned :=
      if List.isPrefixOf (("<").toList) cleaned
         && List.isSuffixOf ((">").toList) cleaned
      then (cleaned.drop 1).dropLast
      else cleaned
    match splitWS cleaned with
    | p :: _ => some (pyStrip p)
    | [] => if cleaned.isEmpty then none else some cleaned

/-- One entry of the reply map
(`service/types.ReplyMapEntry`): the reply and its accumulated children. -/
structure ReplyMapEntry where
  reply : FeedMessage
  children : List Str := []
deriving DecidableEq

/-- First value bound to a key in an association list (Python dict lookup;
the reply map preserves insertion order like a Python dict). -/
def assocLookup (m : List (Str × ReplyMapEntry)) (k : Str) :
    Option ReplyMapEntry :=
  (m.find? (fun p => p.1 == k)).map (fun p => p.2)

/-- Dict insert-or-overwrite that keeps the original key position. -/
def assocInsert : List (Str × ReplyMapEntry) → Str → ReplyMapEntry →
    List (Str × ReplyMapEntry)
  | [], k, v => [(k, v)]
  | (k', v') :: t, k, v =>
    if k' == k then (k', v) :: t else (k', v') :: assocInsert t k v

/-- Append a child id to the entry of `parent` (the source only calls this
with a key of the map, so a missing key — a Python `KeyError` — cannot
occur and is modelled as a no-op). -/
def appendChild : List (Str × ReplyMapEntry) → Str → Str →
    List (Str × ReplyMapEntry)
  | [], _, _ => []
  | (k, e) :: t, parent, child =>
    if k == parent then (k, { e with children := e.children ++ [child] }) :: t
    else (k, e) :: appendChild t parent child

/-- Translation of `thread_service._find_parent_reply_in_list`
(lines 84-138): follow the `in_reply_to` chain — exact key match, then fuzzy
containment over the map keys in insertion order, then a store lookup — for
at most `max_depth` steps.  `store` models
`FeedMessageRepository.find_by_message_id_header`. -/
def find_parent_reply_in_list (store : Str → Option FeedMessage)
    (map_keys : List Str) (patch_message_id : Str) :
    Nat → Option Str → Option Str
  | 0, _ => none
  | Nat.succ depth, in_reply_to =>
    if optFalsy in_reply_to then none
    else
      match extract_message_id_from_header in_reply_to with
      | none => none
      | some ex =>
        if ex == patch_message_id || substr patch_message_id ex then none
        else if map_keys.any (fun k => k == ex) then some ex
        else
          match map_keys.find? (fun rid => substr ex rid || substr rid ex) with
          | some rid => some rid
          | none =>
            match store ex with
            | some fm =>
              if optFalsy fm.in_reply_to_header then none
              else
                find_parent_reply_in_list store map_keys patch_message_id
                  depth fm.in_reply_to_header
            | none => none

/-- The per-reply decision of the second loop of
`build_reply_hierarchy_internal` (lines 164-194): `none` means the reply
becomes a root, `some p` attaches it below map key `p`.  The chain search
starts at the source's default `max_depth = 5`. -/
def parent_for_reply (store : Str → Option FeedMessage) (map_keys : List Str)
    (patch_message_id : Str) (r : FeedMessage) : Option Str :=
  if optFalsy r.in_reply_to_header then none
  else
    match extract_message_id_from_header r.in_reply_to_header with
    | none => none
    | some ex =>
      if ex == patch_message_id || substr patch_message_id ex then none
      else find_parent_reply_in_list store map_keys patch_message_id 5
        r.in_reply_to_header

/-- The reply map after the first loop of `build_reply_hierarchy_internal`
(lines 160-161): one entry per reply, empty children. -/
def initial_reply_map (replies : List FeedMessage) :
    List (Str × ReplyMapEntry) :=
  replies.foldl (fun m r => assocInsert m r.message_id_header { reply := r }) []

/-- The second loop of `build_reply_hierarchy_internal` (lines 164-194):
each reply either joins the root list or is appended to its parent's
children, in list order. -/
def assign_replies (store : Str → Option FeedMessage) (patch_message_id : Str)
    (map_keys : List Str) :
    List FeedMessage → List (Str × ReplyMapEntry) → List Str →
    List (Str × ReplyMapEntry) × List Str
  | [], m, roots => (m, roots)
  | r :: rs, m, roots =>
    match parent_for_reply store map_keys patch_message_id r with
    | none =>
      assign_replies store patch_message_id map_keys rs m
        (roots ++ [r.message_id_header])
    | some p =>
      assign_replies store patch_message_id map_keys rs
        (appendChild m p r.message_id_header) roots

/-- Reply hierarchy result (`service/types.ReplyHierarchy`). -/
structure ReplyHierarchy where
  reply_map : List (Str × ReplyMapEntry)
  root_replies : List Str
deriving DecidableEq

/-- The sort key of lines 197-205: `parse_reply_time` of the mapped reply,
or the minimum when the reply has no `received_at` (`datetime.min`, here 0;
the timezone adjustment of `parse_reply_time` preserves the instant and is
dropped). -/
def reply_time_key (m : List (Str × ReplyMapEntry)) (rid : Str) : Nat :=
  match assocLookup m rid with
  | some e => e.reply.received_at.getD 0
  | none => 0

/-- Ascending order on reply ids by `reply_time_key`. -/
def byReplyTime (m : List (Str × ReplyMapEntry)) (a b : Str) : Prop :=
  reply_time_key m a ≤ reply_time_key m b

instance (m : List (Str × ReplyMapEntry)) : DecidableRel (byReplyTime m) :=
  fun a b => by unfold byReplyTime; infer_instance

instance (m : List (Str × ReplyMapEntry)) : IsTotal Str (byReplyTime m) :=
  ⟨fun a b => Nat.le_total (reply_time_key m a) (reply_time_key m b)⟩

instance (m : List (Str × ReplyMapEntry)) : IsTrans Str (byReplyTime m) :=
  ⟨fun _ _ _ => Nat.le_trans⟩

/-- Translation of `thread_service.build_reply_hierarchy_internal`
(lines 141-207): build the map, assign each reply, then sort the root list
and every child list by reply time ascending (Python's stable `sort`,
modelled by insertion sort; the children sorts look keys up in the same map,
whose `reply` fields the child-appends never change). -/
def build_reply_hierarchy_internal (store : Str → Option FeedMessage)
    (patch_replies : List FeedMessage) (patch_message_id : Str) :
    ReplyHierarchy :=
  let map0 := initial_reply_map patch_replies
  let keys := map0.map (fun p => p.1)
  let res := assign_replies store patch_message_id keys patch_replies map0 []
  let roots_sorted := List.insertionSort (byReplyTime res.1) res.2
  let map2 := res.1.map (fun p =>
    (p.1, { p.2 with
            children := List.insertionSort (byReplyTime res.1) p.2.children }))
  { reply_map := map2, root_replies := roots_sorted }

/-- Decimal digit character of `n < 10` (larger arguments clamp to `9`). -/
def digitChar : Nat → Char
  | 0 => '0'
  | 1 => '1'
  | 2 => '2'
  | 3 => '3'
  | 4 => '4'
  | 5 => '5'
  | 6 => '6'
  | 7 => '7'
  | 8 => '8'
  | _ => '9'

/-- Decimal representation of a natural, most significant digit first. -/
def natDigits (n : Nat) : Str :=
  if _h : n < 10 then [digitChar n]
  else natDigits (n / 10) ++ [digitChar (n % 10)]
termination_by n
decreasing_by
  exact Nat.div_lt_self (by omega) (by omega)

/-- Modelled from the spec: §8 names a canonical rendering
`render_subject(version, i, t)` that is not part of the sources; following
the spec's bracketed form it renders `[PATCH v<n> i/t] <rest>`. -/
def render_subject (v i t : Nat) (rest : Str) : Str :=
  ('[' :: ("PATCH v").toList) ++ natDigits v ++ [' '] ++ natDigits i
    ++ ['/'] ++ natDigits t ++ (']' :: rest)

/-!  Theorems.  Each claim of the specification review is settled by exactly
one named theorem below; shared helper lemmas precede them. -/

/-- Branch lemma: a `re:` prefix classifies as REPLY. -/
theorem classify_reply (subject : Str) (irt mid : Option Str)
    (h : List.isPrefixOf (("re:").toList) (lowerStr subject) = true) :
    classify_message subject irt mid = { is_reply := true } := by
  unfold classify_message
  rw [h]
  simp

/-- Branch lemma: a subject that fails the keyword gate classifies as
other. -/
theorem classify_other (subject : Str) (irt mid : Option Str)
    (h1 : List.isPrefixOf (("re:").toList) (lowerStr subject) = false)
    (h2 : (parse_patch_subject subject).is_patch = false) :
    classify_message subject irt mid = {} := by
  unfold classify_message
  rw [h1]
  simp [h2]

/-- Branch lemma: a series PATCH without `in_reply_to_header` becomes the
cover letter of its own series. -/
theorem classify_cover (subject : Str) (irt mid : Option Str) (t : Nat)
    (h1 : List.isPrefixOf (("re:").toList) (lowerStr subject) = false)
    (h2 : (parse_patch_subject subject).is_patch = true)
    (h3 : (parse_patch_subject subject).total = some t) (h4 : 1 ≤ t)
    (h5 : optFalsy irt = true) :
    classify_message subject irt mid
      = { is_patch := true, is_series_patch := true,
          patch_info := some
            { parse_patch_subject subject with is_cover_letter := true },
          series_message_id := mid } := by
  unfold classify_message
  rw [h1]
  simp [h2, h3, h4, h5]

/-- Branch lemma: a series PATCH with an `in_reply_to_header` becomes a
sub-patch of the series that header names. -/
theorem classify_subpatch (subject : Str) (irt mid : Option Str) (t : Nat)
    (h1 : List.isPrefixOf (("re:").toList) (lowerStr subject) = false)
    (h2 : (parse_patch_subject subject).is_patch = true)
    (h3 : (parse_patch_subject subject).total = some t) (h4 : 1 ≤ t)
    (h5 : optFalsy irt = false) :
    classify_message subject irt mid
      = { is_patch := true, is_series_patch := true,
          patch_info := some
            { parse_patch_subject subject with is_cover_letter := false },
          series_message_id := irt } := by
  unfold classify_message
  rw [h1]
  simp [h2, h3, h4, h5]

/-- Branch lemma: a PATCH without a usable `index/total` pair is a single
PATCH. -/
theorem classify_single (subject : Str) (irt mid : Option Str)
    (h1 : List.isPrefixOf (("re:").toList) (lowerStr subject) = false)
    (h2 : (parse_patch_subject subject).is_patch = true)
    (h3 : (match (parse_patch_subject subject).total with
           | some t => decide (1 ≤ t)
           | none => false) = false) :
    classify_message subject irt mid
      = { is_patch := true, is_series_patch := false,
          patch_info := some
            { parse_patch_subject subject with is_cover_letter := false } } := by
  unfold classify_message
  rw [h1]
  simp [h2, h3]

/-- Exhaustive case analysis of `classify_message`: REPLY, other, series
cover letter, series sub-patch, or single PATCH. -/
theorem classify_cases (subject : Str) (irt mid : Option Str) :
    classify_message subject irt mid = { is_reply := true }
    ∨ classify_message subject irt mid = {}
    ∨ (∃ t, (parse_patch_subject subject).total = some t ∧ 1 ≤ t
        ∧ optFalsy irt = true
        ∧ classify_message subject irt mid
          = { is_patch := true, is_series_patch := true,
              patch_info := some
                { parse_patch_subject subject with is_cover_letter := true },
              series_message_id := mid })
    ∨ (∃ t, (parse_patch_subject subject).total = some t ∧ 1 ≤ t
        ∧ optFalsy irt = false
        ∧ classify_message subject irt mid
          = { is_patch := true, is_series_patch := true,
              patch_info := some
                { parse_patch_subject subject with is_cover_letter := false },
              series_message_id := irt })
    ∨ classify_message subject irt mid
      = { is_patch := true, is_series_patch := false,
          patch_info := some
            { parse_patch_subject subject with is_cover_letter := false } } := by
  cases hre : List.isPrefixOf (("re:").toList) (lowerStr subject) with
  | true => exact Or.inl (classify_reply subject irt mid hre)
  | false =>
    cases hpp : (parse_patch_subject subject).is_patch with
    | false => exact Or.inr (Or.inl (classify_other subject irt mid hre hpp))
    | true =>
      cases hm : (match (parse_patch_subject subject).total with
          | some t => decide (1 ≤ t)
          | none => false) with
      | false =>
        exact Or.inr (Or.inr (Or.inr (Or.inr
          (classify_single subject irt mid hre hpp hm))))
      | true =>
        obtain ⟨t, ht, h1t⟩ : ∃ t,
            (parse_patch_subject subject).total = some t ∧ 1 ≤ t := by
          revert hm
          cases (parse_patch_subject subject).total with
          | none => intro hm; simp at hm
          | some t =>
            intro hm
            simp at hm
            exact ⟨t, rfl, hm⟩
        cases hf : optFalsy irt with
        | true =>
          exact Or.inr (Or.inr (Or.inl
            ⟨t, ht, h1t, rfl, classify_cover subject irt mid t hre hpp ht h1t hf⟩))
        | false =>
          exact Or.inr (Or.inr (Or.inr (Or.inl
            ⟨t, ht, h1t, rfl,
              classify_subpatch subject irt mid t hre hpp ht h1t hf⟩)))

/-- C9: for every input triple, `classify_message` never sets both
`is_patch` and `is_reply`, so every `FeedMessage` built from the
classification by `_build_service_feed_message` satisfies
`¬(is_patch ∧ is_reply)`. -/
theorem classify_never_patch_and_reply (subject : Str) (irt mid : Option Str)
    (subsystem : Str) (email : Option Str) (received : Option Nat)
    (message_id : Str) (author : Str) (content url : Option Str) :
    ((classify_message subject irt mid).is_patch
      && (classify_message subject irt mid).is_reply) = false
    ∧ ((build_service_feed_message subsystem email received message_id mid
          irt subject author content url
          (classify_message subject irt mid)).is_patch
        && (build_service_feed_message subsystem email received message_id mid
          irt subject author content url
          (classify_message subject irt mid)).is_reply) = false := by
  have h : ((classify_message subject irt mid).is_patch
      && (classify_message subject irt mid).is_reply) = false := by
    rcases classify_cases subject irt mid with hc | hc |
      ⟨t, _, _, _, hc⟩ | ⟨t, _, _, _, hc⟩ | hc
      <;> rw [hc]
      <;> simp
  exact ⟨h, by simpa [build_service_feed_message] using h⟩

/-- C2 counterexample: the subject of the claim contains the word `patch`
and a `[` but no bracket whose content contains PATCH, does not start with
`re:` or `patch:`, and is nevertheless parsed and classified as a PATCH,
because the keyword gate of `parse_patch_subject` only requires `patch` and
`[` to occur somewhere in the subject. -/
theorem patch_keyword_outside_bracket :
    (List.isPrefixOf (("re:").toList)
      (lowerStr (("update patch handling [v2] in foo").toList)) = false)
    ∧ (List.isPrefixOf (("patch:").toList)
      (lowerStr (("update patch handling [v2] in foo").toList)) = false)
    ∧ firstBracketPatchContent (("update patch handling [v2] in foo").toList)
      = none
    ∧ (parse_patch_subject
        (("update patch handling [v2] in foo").toList)).is_patch = true
    ∧ (classify_message (("update patch handling [v2] in foo").toList)
        none none).is_patch = true := by
  decide

/-- C2 as amended: a subject is parsed as a non-PATCH precisely under the
source's keyword gate — when it does not contain both the word `patch` and
a `[` and does not start with `patch:`; such a subject that also lacks the
`re:` prefix classifies as other (neither PATCH nor REPLY). -/
theorem no_patch_keyword_not_classified (subject : Str) (irt mid : Option Str)
    (h1 : ¬(substr (("patch").toList) (lowerStr subject) = true
           ∧ (lowerStr subject).contains '[' = true))
    (h2 : List.isPrefixOf (("patch:").toList) (lowerStr subject) = false)
    (h3 : List.isPrefixOf (("re:").toList) (lowerStr subject) = false) :
    (parse_patch_subject subject).is_patch = false
    ∧ (classify_message subject irt mid).is_patch = false
    ∧ (classify_message subject irt mid).is_reply = false := by
  have hkw : (substr (("patch").toList) (lowerStr subject)
      && (lowerStr subject).contains '[') = false := by
    cases ha : substr (("patch").toList) (lowerStr subject)
      <;> cases hb : (lowerStr subject).contains '['
      <;> simp_all
  have hp : parse_patch_subject subject = {} := by
    unfold parse_patch_subject
    simp only [hkw, h2]
    simp
  have hcl := classify_other subject irt mid h3 (by rw [hp])
  exact ⟨by rw [hp], by rw [hcl], by rw [hcl]⟩

/-- Witness for the amended C2 at a concrete subject. -/
theorem no_patch_keyword_not_classified_witness :
    (¬(substr (("patch").toList) (lowerStr (("hello world").toList)) = true
       ∧ (lowerStr (("hello world").toList)).contains '[' = true)
     ∧ List.isPrefixOf (("patch:").toList)
        (lowerStr (("hello world").toList)) = false
     ∧ List.isPrefixOf (("re:").toList)
        (lowerStr (("hello world").toList)) = false)
    ∧ ((parse_patch_subject (("hello world").toList)).is_patch = false
       ∧ (classify_message (("hello world").toList) none none).is_patch = false
       ∧ (classify_message (("hello world").toList) none none).is_reply
          = false) :=
  ⟨⟨by decide, by decide, by decide⟩,
    no_patch_keyword_not_classified (("hello world").toList) none none
      (by decide) (by decide) (by decide)⟩

/-- C4 counterexample: the subject `[PATCH 3/5] fix` arriving with an absent
`in_reply_to_header` is forced into the cover-letter branch, producing a
stored message with `is_cover_letter = true` and `patch_index = 3 ≠ 0`. -/
theorem cover_letter_with_nonzero_index :
    (build_service_feed_message (("rust").toList) none (some 5)
      (("id3").toList) (some (("m35@x").toList)) none
      (("[PATCH 3/5] fix").toList) (("Bob").toList) none none
      (classify_message (("[PATCH 3/5] fix").toList) none
        (some (("m35@x").toList)))).is_cover_letter = true
    ∧ (build_service_feed_message (("rust").toList) none (some 5)
      (("id3").toList) (some (("m35@x").toList)) none
      (("[PATCH 3/5] fix").toList) (("Bob").toList) none none
      (classify_message (("[PATCH 3/5] fix").toList) none
        (some (("m35@x").toList)))).patch_index = some 3 := by
  decide

/-- C4 as amended: when a built `FeedMessage` has `is_cover_letter = true`,
its `in_reply_to_header` is absent (falsy), it is a series patch with
`patch_total ≥ 1`, and its `series_message_id` is the supplied
`message_id_header`; `patch_index = 0` does not follow (the classifier
forces the cover-letter flag from the absent reply header alone). -/
theorem cover_letter_implies_absent_reply_header (subject : Str)
    (irt mid : Option Str) (subsystem : Str) (email : Option Str)
    (received : Option Nat) (message_id : Str) (author : Str)
    (content url : Option Str)
    (h : (build_service_feed_message subsystem email received message_id mid
        irt subject author content url
        (classify_message subject irt mid)).is_cover_letter = true) :
    optFalsy irt = true
    ∧ (classify_message subject irt mid).is_series_patch = true
    ∧ (build_service_feed_message subsystem email received message_id mid irt
        subject author content url
        (classify_message subject irt mid)).series_message_id = mid
    ∧ ∃ t, (build_service_feed_message subsystem email received message_id mid
        irt subject author content url
        (classify_message subject irt mid)).patch_total = some t ∧ 1 ≤ t := by
  rcases classify_cases subject irt mid with hc | hc |
    ⟨t, ht, h1t, hfalsy, hc⟩ | ⟨t, ht, h1t, hfalsy, hc⟩ | hc
  · rw [hc] at h
    simp [build_service_feed_message] at h
  · rw [hc] at h
    simp [build_service_feed_message] at h
  · refine ⟨hfalsy, by simp [hc], by simp [build_service_feed_message, hc], ?_⟩
    exact ⟨t, by simp [build_service_feed_message, hc, ht], h1t⟩
  · rw [hc] at h
    simp [build_service_feed_message] at h
  · rw [hc] at h
    simp [build_service_feed_message] at h

/-- C5 counterexample: with high-water mark 5, an old entry (timestamp 1)
listed before a new entry (timestamp 10) makes `_filter_entries_by_date`
`break` and drop the new entry, so the result is not the order-independent
set of new-or-unparseable entries the claim describes. -/
theorem date_filter_depends_on_order :
    filter_entries_by_date 5 [{ updated := some 1 }, { updated := some 10 }]
      = []
    ∧ kept_entries_per_claim 5 [{ updated := some 1 }, { updated := some 10 }]
      = [{ updated := some 10 }] := by
  decide

/-- C5 as amended: `_filter_entries_by_date` returns the longest initial
segment of the list consisting of entries strictly newer than the mark or
lacking a parseable timestamp; the scan stops at the first entry whose
timestamp is older than or equal to the mark, dropping every later entry
regardless of its timestamp. -/
theorem date_filter_takeWhile (mark : Nat) (entries : List RawFeedEntry) :
    filter_entries_by_date mark entries
      = entries.takeWhile (fun e =>
          match e.updated with
          | none => true
          | some t => decide (mark < t)) := by
  induction entries with
  | nil => rfl
  | cons e es ih =>
    cases h : e.updated with
    | none => simp [filter_entries_by_date, List.takeWhile_cons, h, ih]
    | some t =>
      by_cases hm : mark < t
        <;> simp [filter_entries_by_date, List.takeWhile_cons, h, hm, ih]

/-- Witness for the amended C4 at a concrete cover letter. -/
theorem cover_letter_implies_absent_reply_header_witness :
    ((build_service_feed_message (("mm").toList) none (some 1) (("id0").toList)
        (some (("cov@x").toList)) none (("[PATCH 0/2] s").toList)
        (("A").toList) none none
        (classify_message (("[PATCH 0/2] s").toList) none
          (some (("cov@x").toList)))).is_cover_letter = true)
    ∧ (optFalsy none = true
      ∧ (classify_message (("[PATCH 0/2] s").toList) none
          (some (("cov@x").toList))).is_series_patch = true
      ∧ (build_service_feed_message (("mm").toList) none (some 1)
          (("id0").toList) (some (("cov@x").toList)) none
          (("[PATCH 0/2] s").toList) (("A").toList) none none
          (classify_message (("[PATCH 0/2] s").toList) none
            (some (("cov@x").toList)))).series_message_id
          = some (("cov@x").toList)
      ∧ ∃ t, (build_service_feed_message (("mm").toList) none (some 1)
          (("id0").toList) (some (("cov@x").toList)) none
          (("[PATCH 0/2] s").toList) (("A").toList) none none
          (classify_message (("[PATCH 0/2] s").toList) none
            (some (("cov@x").toList)))).patch_total = some t ∧ 1 ≤ t) :=
  ⟨by decide,
    cover_letter_implies_absent_reply_header (("[PATCH 0/2] s").toList) none
      (some (("cov@x").toList)) (("mm").toList) none (some 1) (("id0").toList)
      (("A").toList) none none (by decide)⟩

/-- C3: the global exclusive-mode flag never gates card creation.  The
exclusive branch exists in `should_create_patch_card` — with the stored
flag supplied, as at the command path's constructor, the method does return
`(false, [])` when no enabled filter matches — but the method's only
caller, `_should_create_patch_card`, constructs `PatchCardFilterService`
without a `filter_config_repo` (feed_message_service.py line 753), so the
feed path computes `exclusive_mode = False`, returns `(true, [])`, and a
qualifying PATCH whose subject matches no enabled filter still gets its
card even though the stored global flag is true: the specified gating is
not implemented on the creation path. -/
theorem exclusive_mode_flag_never_gates_creation :
    exclusive_mode_local none = false
    ∧ should_create_patch_card trivEnv (exclusive_mode_local (some true))
        [{ name := ("rust").toList, enabled := true,
           filter_conditions :=
            [((("subject").toList), FilterCond.str (("rust").toList))] }]
        (build_service_feed_message (("mm").toList) none (some 1)
          (("id0").toList) (some (("cov@x").toList)) none
          (("[PATCH 0/2] s").toList) (("A").toList) none none
          (classify_message (("[PATCH 0/2] s").toList) none
            (some (("cov@x").toList))))
      = (false, [])
    ∧ feed_should_create_patch_card trivEnv
        [{ name := ("rust").toList, enabled := true,
           filter_conditions :=
            [((("subject").toList), FilterCond.str (("rust").toList))] }]
        (build_service_feed_message (("mm").toList) none (some 1)
          (("id0").toList) (some (("cov@x").toList)) none
          (("[PATCH 0/2] s").toList) (("A").toList) none none
          (classify_message (("[PATCH 0/2] s").toList) none
            (some (("cov@x").toList))))
      = (true, [])
    ∧ (process_email_message trivEnv
        [{ name := ("rust").toList, enabled := true,
           filter_conditions :=
            [((("subject").toList), FilterCond.str (("rust").toList))] }]
        [] false true
        (build_service_feed_message (("mm").toList) none (some 1)
          (("id0").toList) (some (("cov@x").toList)) none
          (("[PATCH 0/2] s").toList) (("A").toList) none none
          (classify_message (("[PATCH 0/2] s").toList) none
            (some (("cov@x").toList))))
        (classify_message (("[PATCH 0/2] s").toList) none
          (some (("cov@x").toList)))).isSome = true := by
  decide

/-- Removing every key listed in `types` empties the conditions dict: the
loop of `remove_types_from_rule_group` ends with no conditions and counts at
least one deletion when the dict was nonempty. -/
theorem remove_types_loop_all_keys (types : List Str)
    (conds : List (Str × FilterCond))
    (hall : ∀ p ∈ conds, p.1 ∈ types) :
    (remove_types_loop conds types).1 = []
    ∧ ((remove_types_loop conds types).2 = 0 → conds = []) := by
  induction types generalizing conds with
  | nil =>
    have hc : conds = [] := by
      cases conds with
      | nil => rfl
      | cons p t => exact absurd (hall p (List.mem_cons_self p t)) (by simp)
    subst hc
    exact ⟨rfl, fun _ => rfl⟩
  | cons t ts ih =>
    cases hany : conds.any (fun p => p.1 == t) with
    | true =>
      have h1 : ∀ p ∈ conds.filter (fun p => p.1 != t), p.1 ∈ ts := by
        intro p hp
        have hmf := List.mem_filter.mp hp
        rcases List.mem_cons.mp (hall p hmf.1) with he | hts
        · exact absurd he (by simpa using hmf.2)
        · exact hts
      simp only [remove_types_loop, hany, if_true]
      refine ⟨(ih _ h1).1, ?_⟩
      intro hz
      simp at hz
    | false =>
      have h1 : ∀ p ∈ conds, p.1 ∈ ts := by
        intro p hp
        rcases List.mem_cons.mp (hall p hp) with he | hts
        · have := List.any_eq_false.mp hany p hp
          simp [he] at this
        · exact hts
      simp only [remove_types_loop, hany, Bool.false_eq_true, if_false]
      exact ih conds h1

/-- C10: an enabled rule group with an empty conditions map matches every
feed message (the AND over zero conditions), so in exclusive mode its
presence surfaces every qualifying PATCH; and removing all of a group's
condition types keeps the group alive with an empty conditions map instead
of deleting it. -/
theorem empty_rule_group_matches_everything (env : FilterEnv)
    (m : FeedMessage) (f : PatchCardFilterData)
    (filters : List PatchCardFilterData)
    (hempty : f.filter_conditions = [])
    (hmem : f ∈ filters) (hen : f.enabled = true) :
    matches_filter env m f = true
    ∧ (should_create_patch_card env true filters m).1 = true
    ∧ ∀ g : PatchCardFilterData, g.filter_conditions ≠ [] →
        remove_types_from_rule_group g
          (g.filter_conditions.map (fun p => p.1))
          = some { g with filter_conditions := [] } := by
  have hmf : matches_filter env m f = true := by
    simp [matches_filter, hempty]
  refine ⟨hmf, ?_, ?_⟩
  · unfold should_create_patch_card
    cases hie : (filters.filter (fun x => x.enabled)).isEmpty with
    | true => simp [hie]
    | false =>
      have hf2 : f ∈ (filters.filter (fun x => x.enabled)).filter
          (fun x => matches_filter env m x) := by
        simp [List.mem_filter, hmem, hen, hmf]
      have hnm : f.name ∈ ((filters.filter (fun x => x.enabled)).filter
          (fun x => matches_filter env m x)).map (fun x => x.name) :=
        List.mem_map_of_mem _ hf2
      have hne : (((filters.filter (fun x => x.enabled)).filter
          (fun x => matches_filter env m x)).map (fun x => x.name)).isEmpty
          = false := by
        cases hmm : ((filters.filter (fun x => x.enabled)).filter
            (fun x => matches_filter env m x)).map (fun x => x.name) with
        | nil => rw [hmm] at hnm; cases hnm
        | cons a l => rfl
      simp only [hie, Bool.false_eq_true, if_false, hne, Bool.not_false,
        if_true]
  · intro g hg
    unfold remove_types_from_rule_group
    have hall : ∀ p ∈ g.filter_conditions,
        p.1 ∈ g.filter_conditions.map (fun q => q.1) :=
      fun p hp => List.mem_map_of_mem _ hp
    obtain ⟨h1, h2⟩ := remove_types_loop_all_keys _ _ hall
    have hz : ¬((remove_types_loop g.filter_conditions
        (g.filter_conditions.map (fun q => q.1))).2 = 0) :=
      fun hz => hg (h2 hz)
    simp [hz, h1]

/-- Witness for C10 at a concrete empty-conditioned enabled group. -/
theorem empty_rule_group_matches_everything_witness :
    (({ name := ("g1").toList, enabled := true, filter_conditions := [] }
        : PatchCardFilterData).filter_conditions = []
     ∧ ({ name := ("g1").toList, enabled := true, filter_conditions := [] }
        : PatchCardFilterData)
        ∈ [({ name := ("g1").toList, enabled := true, filter_conditions := [] }
            : PatchCardFilterData)]
     ∧ ({ name := ("g1").toList, enabled := true, filter_conditions := [] }
        : PatchCardFilterData).enabled = true)
    ∧ (matches_filter trivEnv {}
        { name := ("g1").toList, enabled := true, filter_conditions := [] }
        = true
      ∧ (should_create_patch_card trivEnv true
          [{ name := ("g1").toList, enabled := true,
             filter_conditions := [] }] {}).1 = true
      ∧ ∀ g : PatchCardFilterData, g.filter_conditions ≠ [] →
          remove_types_from_rule_group g
            (g.filter_conditions.map (fun p => p.1))
            = some { g with filter_conditions := [] }) :=
  ⟨⟨by decide, by decide, by decide⟩,
    empty_rule_group_matches_everything trivEnv {}
      { name := ("g1").toList, enabled := true, filter_conditions := [] }
      [{ name := ("g1").toList, enabled := true, filter_conditions := [] }]
      (by decide) (by decide) (by decide)⟩

/-- Inversion: whenever `_process_patch_message` produces a card, the card is
the one `_build_temp_patch_card` constructs, so its series fields come from
the classification and the converted service message (the optional
`matched_filters` update changes no other field). -/
theorem process_patch_message_some_fields (env : FilterEnv)
    (filters : List PatchCardFilterData)
    (store : List FeedMessage) (card_exists sender : Bool)
    (fm : FeedMessage) (cls : MessageClassification) (card : PatchCard)
    (h : process_patch_message env filters store card_exists sender
      fm cls = some card) :
    card.is_series_patch
      = (convert_to_service_feed_message fm cls.patch_info
          cls.series_message_id).is_series_patch
    ∧ card.series_message_id = cls.series_message_id
    ∧ card.message_id_header = fm.message_id_header
    ∧ card.is_cover_letter
      = (convert_to_service_feed_message fm cls.patch_info
          cls.series_message_id).is_cover_letter := by
  unfold process_patch_message at h
  split at h
  · cases h
  · split at h
    · cases h
    · split at h
      · cases h
      · dsimp only [] at h
        split at h
        · cases h
        · split at h
          · cases h
          · rw [Option.some_inj] at h
            subst h
            split
              <;> simp [build_temp_patch_card,
                convert_to_service_feed_message]

/-- C1 counterexample: the feed entry `[PATCH 0/2] series X` with a
non-empty `in_reply_to_header` and `patch_index == 0` does get a card
(the `index == 0` clause bypasses the sub-patch skip), but the card has
`is_series_patch = true`, `series_message_id = "parent@x"` different from
its own `message_id_header = "own@x"`, and `is_cover_letter = false`. -/
theorem series_card_invariant_violated :
    ((process_email_message trivEnv [] [] false true
        (build_service_feed_message (("mm").toList) none (some 100)
          (("id1").toList) (some (("own@x").toList))
          (some (("parent@x").toList)) (("[PATCH 0/2] series X").toList)
          (("Alice").toList) none none
          (classify_message (("[PATCH 0/2] series X").toList)
            (some (("parent@x").toList)) (some (("own@x").toList))))
        (classify_message (("[PATCH 0/2] series X").toList)
          (some (("parent@x").toList)) (some (("own@x").toList)))).map
      (fun c => (c.is_series_patch,
        decide (c.series_message_id = some c.message_id_header),
        c.is_cover_letter)))
      = some (true, false, false) := by
  decide

/-- C1 as amended: for a card created from an entry whose
`in_reply_to_header` is absent and whose `message_id_header` is present and
non-empty, `is_series_patch = true` does imply
`series_message_id = message_id_header` and `is_cover_letter = true`; the
original invariant fails only for entries that carry a reply header
(their card takes `series_message_id` from that header). -/
theorem series_card_from_absent_reply_header (env : FilterEnv)
    (filters : List PatchCardFilterData)
    (store : List FeedMessage) (card_exists sender : Bool) (subject : Str)
    (irt : Option Str) (s : Str) (subsystem : Str) (email : Option Str)
    (received : Option Nat) (message_id : Str) (author : Str)
    (content url : Option Str)
    (hmid : s.isEmpty = false) (hirt : optFalsy irt = true) :
    ∀ card : PatchCard,
      process_email_message env filters store card_exists sender
        (build_service_feed_message subsystem email received message_id
          (some s) irt subject author content url
          (classify_message subject irt (some s)))
        (classify_message subject irt (some s)) = some card →
      card.is_series_patch = true →
      card.series_message_id = some card.message_id_header
      ∧ card.is_cover_letter = true := by
  intro card hproc hser
  rcases classify_cases subject irt (some s) with hc | hc |
    ⟨t, ht, h1t, hf, hc⟩ | ⟨t, ht, h1t, hf, hc⟩ | hc
  · rw [hc] at hproc
    simp [process_email_message] at hproc
  · rw [hc] at hproc
    simp [process_email_message] at hproc
  · have hpp : process_patch_message env filters store card_exists
        sender
        (build_service_feed_message subsystem email received message_id
          (some s) irt subject author content url
          (classify_message subject irt (some s)))
        (classify_message subject irt (some s)) = some card := by
      rw [hc] at hproc ⊢
      simpa [process_email_message] using hproc
    obtain ⟨hs1, hs2, hs3, hs4⟩ := process_patch_message_some_fields
      _ _ _ _ _ _ _ _ hpp
    refine ⟨?_, ?_⟩
    · rw [hs2, hs3, hc]
      simp [build_service_feed_message, orElseStr, hmid]
    · rw [hs4, hc]
      simp [convert_to_service_feed_message]
  · rw [hf] at hirt
    cases hirt
  · exfalso
    have hpp : process_patch_message env filters store card_exists
        sender
        (build_service_feed_message subsystem email received message_id
          (some s) irt subject author content url
          (classify_message subject irt (some s)))
        (classify_message subject irt (some s)) = some card := by
      rw [hc] at hproc ⊢
      simpa [process_email_message] using hproc
    obtain ⟨hs1, _, _, _⟩ := process_patch_message_some_fields
      _ _ _ _ _ _ _ _ hpp
    rw [hser, hc] at hs1
    simp [convert_to_service_feed_message] at hs1

/-- Witness for the amended C1 at a concrete cover letter. -/
theorem series_card_from_absent_reply_header_witness :
    ((("cov@x").toList.isEmpty = false ∧ optFalsy none = true)
     ∧ ∀ card : PatchCard,
        process_email_message trivEnv [] [] false true
          (build_service_feed_message (("mm").toList) none (some 1)
            (("id0").toList) (some (("cov@x").toList)) none
            (("[PATCH 0/2] s").toList) (("A").toList) none none
            (classify_message (("[PATCH 0/2] s").toList) none
              (some (("cov@x").toList))))
          (classify_message (("[PATCH 0/2] s").toList) none
            (some (("cov@x").toList))) = some card →
        card.is_series_patch = true →
        card.series_message_id = some card.message_id_header
        ∧ card.is_cover_letter = true) :=
  ⟨⟨by decide, by decide⟩,
    series_card_from_absent_reply_header trivEnv [] [] false true
      (("[PATCH 0/2] s").toList) none (("cov@x").toList) (("mm").toList)
      none (some 1) (("id0").toList) (("A").toList) none none
      (by decide) (by decide)⟩

/-- C6 counterexample: once the cover letter `cov@x` (total 2) and both
sub-patches are ingested, the creation-path listing has the two sub-patches,
but the collation path (`get_series_patches` over `find_series_patches`)
returns three entries — it includes the cover letter itself as an entry
with `patch_index = 0`, so the listing is not "exactly `patch_total`
entries with indexes in `[1..patch_total]`" on both paths. -/
theorem series_listing_includes_cover_letter :
    ((get_series_patches
        [{ message_id_header := ("p2@x").toList,
           subject := ("[PATCH 2/2] B").toList, is_patch := true,
           is_series_patch := true, patch_index := some 2,
           patch_total := some 2,
           series_message_id := some (("cov@x").toList),
           received_at := some 3 },
         { message_id_header := ("cov@x").toList,
           subject := ("[PATCH 0/2] series X").toList, is_patch := true,
           is_series_patch := true, is_cover_letter := true,
           patch_index := some 0, patch_total := some 2,
           series_message_id := some (("cov@x").toList),
           received_at := some 1 },
         { message_id_header := ("p1@x").toList,
           subject := ("[PATCH 1/2] A").toList, is_patch := true,
           is_series_patch := true, patch_index := some 1,
           patch_total := some 2,
           series_message_id := some (("cov@x").toList),
           received_at := some 2 }]
        (("cov@x").toList)).map (fun p => p.patch_index))
      = [0, 1, 2]
    ∧ ((get_series_patches_for_cover_letter
        [{ message_id_header := ("p2@x").toList,
           subject := ("[PATCH 2/2] B").toList, is_patch := true,
           is_series_patch := true, patch_index := some 2,
           patch_total := some 2,
           series_message_id := some (("cov@x").toList),
           received_at := some 3 },
         { message_id_header := ("cov@x").toList,
           subject := ("[PATCH 0/2] series X").toList, is_patch := true,
           is_series_patch := true, is_cover_letter := true,
           patch_index := some 0, patch_total := some 2,
           series_message_id := some (("cov@x").toList),
           received_at := some 1 },
         { message_id_header := ("p1@x").toList,
           subject := ("[PATCH 1/2] A").toList, is_patch := true,
           is_series_patch := true, patch_index := some 1,
           patch_total := some 2,
           series_message_id := some (("cov@x").toList),
           received_at := some 2 }]
        { message_id_header := ("cov@x").toList,
          subject := ("[PATCH 0/2] series X").toList, is_patch := true,
          is_series_patch := true, is_cover_letter := true,
          patch_index := some 0, patch_total := some 2,
          series_message_id := some (("cov@x").toList),
          received_at := some 1 }
        { message_id_header := ("cov@x").toList,
          subject := ("[PATCH 0/2] series X").toList, is_patch := true,
          is_series_patch := true, is_cover_letter := true,
          patch_index := some 0, patch_total := some 2,
          series_message_id := some (("cov@x").toList),
          received_at := some 1 }
        (some (("cov@x").toList))
        (some { is_patch := true, index := some 0, total := some 2,
                is_cover_letter := true })).map (fun p => p.patch_index))
      = [1, 2] := by
  decide

/-- Mapping `getD 0` back over `some`-wrapped naturals is the identity. -/
theorem map_getD_comp_some (L : List Nat) :
    L.map ((fun o : Option Nat => o.getD 0) ∘ some) = L := by
  induction L with
  | nil => rfl
  | cons a l ih =>
    rw [List.map_cons, ih]
    rfl

/-- C6 as amended: once all `N` sub-patches of cover letter `S` are
ingested, the creation-path listing
(`_get_series_patches_for_cover_letter`) contains exactly `N` entries whose
`patch_index` values are pairwise distinct and lie in `[1..N]`; the
collation path (`get_series_patches` over `find_series_patches`)
additionally includes the cover letter itself, giving `N + 1` entries whose
indexes are a permutation of `0 :: [1..N]`. -/
theorem series_listing_after_full_ingest (store : List FeedMessage)
    (S : Str) (N : Nat) (cover sfm : FeedMessage) (pinfo : Option PatchInfo)
    (hS : S.isEmpty = false)
    (hcov : store.filter (fun m => m.message_id_header == S) = [cover])
    (hcovS : cover.series_message_id = some S)
    (hcovP : cover.is_patch = true)
    (hcovI : (parse_patch_subject cover.subject).index = some 0)
    (hidx : ((store.filter (fun m => m.series_message_id == some S
        && m.message_id_header != S)).map (fun m => m.patch_index)).Perm
        ((List.range' 1 N).map some))
    (hpar : ∀ m ∈ store.filter (fun m => m.series_message_id == some S
        && m.message_id_header != S),
        (parse_patch_subject m.subject).index = m.patch_index)
    (hsub : ∀ m ∈ store.filter (fun m => m.series_message_id == some S
        && m.message_id_header != S), m.is_patch = true)
    (hsfm : sfm.is_cover_letter = true) :
    (get_series_patches_for_cover_letter store cover sfm (some S)
        pinfo).length = N
    ∧ ((get_series_patches_for_cover_letter store cover sfm (some S)
        pinfo).map (fun p => p.patch_index)).Perm (List.range' 1 N)
    ∧ ((get_series_patches_for_cover_letter store cover sfm (some S)
        pinfo).map (fun p => p.patch_index)).Nodup
    ∧ (∀ i ∈ (get_series_patches_for_cover_letter store cover sfm (some S)
        pinfo).map (fun p => p.patch_index), 1 ≤ i ∧ i ≤ N)
    ∧ (get_series_patches store S).length = N + 1
    ∧ ((get_series_patches store S).map (fun p => p.patch_index)).Perm
        (0 :: List.range' 1 N) := by
  have hcovmid : cover.message_id_header = S := by
    have h1 : cover ∈ store.filter (fun m => m.message_id_header == S) := by
      rw [hcov]
      exact List.mem_cons_self cover []
    exact eq_of_beq (List.mem_filter.mp h1).2
  have hEidx0 : ∀ m ∈ store.filter (fun m => m.series_message_id == some S
      && m.message_id_header != S), m.patch_index ≠ some 0 := by
    intro m hm
    have h1 : m.patch_index ∈ (store.filter
        (fun m => m.series_message_id == some S
          && m.message_id_header != S)).map (fun m => m.patch_index) :=
      List.mem_map_of_mem _ hm
    have h2 := hidx.mem_iff.mp h1
    rw [List.mem_map] at h2
    obtain ⟨i, hi, hieq⟩ := h2
    have h3 := (List.mem_range'_1.mp hi).1
    rw [← hieq]
    intro hcontra
    rw [Option.some_inj] at hcontra
    omega
  have hElen : (store.filter (fun m => m.series_message_id == some S
      && m.message_id_header != S)).length = N := by
    have := hidx.length_eq
    simpa using this
  -- the creation path
  have hguard : get_series_patches_for_cover_letter store cover sfm (some S)
      pinfo
      = List.insertionSort byPatchIndex
        (((List.insertionSort seriesOrder
            (store.filter (fun m => m.series_message_id == some S))).filter
          (fun p => p.patch_index != some 0
            && p.message_id_header != cover.message_id_header)).map
          (fun p =>
            { subject := p.subject
              url := p.url.getD []
              message_id := p.message_id_header
              patch_index := p.patch_index.getD 0
              patch_total := match pinfo with
                | some pi => pi.total.getD 0
                | none => 0 })) := by
    unfold get_series_patches_for_cover_letter find_by_series_message_id
    simp [hsfm, optFalsy, hS]
  have hfcongr : store.filter (fun a =>
      (a.patch_index != some 0
        && a.message_id_header != cover.message_id_header)
      && (a.series_message_id == some S))
      = store.filter (fun m => m.series_message_id == some S
          && m.message_id_header != S) := by
    apply List.filter_congr
    intro m hm
    rw [hcovmid]
    cases hser : (m.series_message_id == some S) with
    | false => simp [hser]
    | true =>
      cases hmid2 : (m.message_id_header != S) with
      | false => simp [hmid2]
      | true =>
        have hmE : m ∈ store.filter (fun m => m.series_message_id == some S
            && m.message_id_header != S) :=
          List.mem_filter.mpr ⟨hm, by simp [hser, hmid2]⟩
        have hidxb : (m.patch_index != some 0) = true := by
          simpa using hEidx0 m hmE
        simp [hser, hmid2, hidxb]
  have hL1perm : (get_series_patches_for_cover_letter store cover sfm
      (some S) pinfo).Perm
      ((store.filter (fun m => m.series_message_id == some S
          && m.message_id_header != S)).map
        (fun p =>
          { subject := p.subject
            url := p.url.getD []
            message_id := p.message_id_header
            patch_index := p.patch_index.getD 0
            patch_total := match pinfo with
              | some pi => pi.total.getD 0
              | none => 0 })) := by
    rw [hguard]
    refine (List.perm_insertionSort _ _).trans (List.Perm.map _ ?_)
    have p1 := (List.perm_insertionSort seriesOrder
      (store.filter (fun m => m.series_message_id == some S))).filter
      (fun p => p.patch_index != some 0
        && p.message_id_header != cover.message_id_header)
    refine p1.trans ?_
    rw [List.filter_filter, hfcongr]
  have hL1idx : ((get_series_patches_for_cover_letter store cover sfm
      (some S) pinfo).map (fun p => p.patch_index)).Perm
      (List.range' 1 N) := by
    refine (hL1perm.map (fun p => p.patch_index)).trans ?_
    rw [List.map_map]
    have hcomp : (store.filter (fun m => m.series_message_id == some S
        && m.message_id_header != S)).map
        ((fun p : SeriesPatchInfo => p.patch_index) ∘ (fun p =>
          { subject := p.subject
            url := p.url.getD []
            message_id := p.message_id_header
            patch_index := p.patch_index.getD 0
            patch_total := match pinfo with
              | some pi => pi.total.getD 0
              | none => 0 }))
        = ((store.filter (fun m => m.series_message_id == some S
            && m.message_id_header != S)).map
          (fun m => m.patch_index)).map (fun o => o.getD 0) := by
      rw [List.map_map]
      rfl
    rw [hcomp]
    refine (hidx.map (fun o => o.getD 0)).trans ?_
    rw [List.map_map]
    rw [map_getD_comp_some]
  -- the collation path
  have honly : ∀ m ∈ store, (m.message_id_header == S) = true →
      m = cover := by
    intro m hm hbe
    have h1 : m ∈ store.filter (fun m => m.message_id_header == S) :=
      List.mem_filter.mpr ⟨hm, hbe⟩
    rw [hcov] at h1
    simpa using h1
  have hpiece1 : store.filter (fun m =>
      (m.message_id_header == S)
      && ((m.message_id_header == S || m.series_message_id == some S)
          && m.is_patch)) = [cover] := by
    rw [← hcov]
    apply List.filter_congr
    intro m hm
    by_cases hbe : m.message_id_header = S
    · have hmc := honly m hm (by simp [hbe])
      subst hmc
      simp [hbe, hcovP]
    · simp [hbe]
  have hpiece2 : store.filter (fun m =>
      (!(m.message_id_header == S))
      && ((m.message_id_header == S || m.series_message_id == some S)
          && m.is_patch))
      = store.filter (fun m => m.series_message_id == some S
          && m.message_id_header != S) := by
    apply List.filter_congr
    intro m hm
    by_cases hbe : m.message_id_header = S
    · simp [hbe]
    · have hbeb : (m.message_id_header == S) = false :=
        beq_eq_false_iff_ne.mpr hbe
      by_cases hser : m.series_message_id = some S
      · have hserb : (m.series_message_id == some S) = true :=
          beq_iff_eq.mpr hser
        have hmE : m ∈ store.filter
            (fun m => m.series_message_id == some S
              && m.message_id_header != S) :=
          List.mem_filter.mpr ⟨hm, by simp [hserb, hbeb, bne]⟩
        simp [hbeb, hserb, hsub m hmE, bne]
      · have hserb : (m.series_message_id == some S) = false :=
          beq_eq_false_iff_ne.mpr hser
        simp [hbeb, hserb, bne]
  have hmsgs : (store.filter (fun m =>
      (m.message_id_header == S || m.series_message_id == some S)
      && m.is_patch)).Perm
      (cover :: store.filter (fun m => m.series_message_id == some S
          && m.message_id_header != S)) := by
    refine (List.filter_append_perm
      (fun m => m.message_id_header == S)
      (store.filter (fun m =>
        (m.message_id_header == S || m.series_message_id == some S)
        && m.is_patch))).symm.trans ?_
    rw [List.filter_filter, List.filter_filter, hpiece1, hpiece2]
    exact List.Perm.refl _
  have hfsp : (find_series_patches store S).Perm
      (cover :: store.filter (fun m => m.series_message_id == some S
          && m.message_id_header != S)) := by
    unfold find_series_patches
    exact (List.perm_insertionSort _ _).trans hmsgs
  have hfsplen : (find_series_patches store S).length = N + 1 := by
    rw [hfsp.length_eq]
    simp [hElen]
  have hfspne : (find_series_patches store S).isEmpty = false := by
    cases hmm : find_series_patches store S with
    | nil => rw [hmm] at hfsplen; simp at hfsplen
    | cons a l => rfl
  have hL2eq : get_series_patches store S
      = build_series_patches_info (find_series_patches store S) := by
    unfold get_series_patches
    simp [hfspne]
  have hL2idx : ((get_series_patches store S).map
      (fun p => p.patch_index)).Perm (0 :: List.range' 1 N) := by
    rw [hL2eq]
    unfold build_series_patches_info
    rw [List.map_map]
    have hmm : ((find_series_patches store S).map
        (fun msg => (parse_patch_subject msg.subject).index.getD 0)).Perm
        ((cover :: store.filter (fun m => m.series_message_id == some S
            && m.message_id_header != S)).map
          (fun msg => (parse_patch_subject msg.subject).index.getD 0)) :=
      hfsp.map _
    refine (List.Perm.trans (by exact hmm) ?_)
    rw [List.map_cons, hcovI]
    have hrest : (store.filter (fun m => m.series_message_id == some S
        && m.message_id_header != S)).map
        (fun msg => (parse_patch_subject msg.subject).index.getD 0)
        = ((store.filter (fun m => m.series_message_id == some S
            && m.message_id_header != S)).map
          (fun m => m.patch_index)).map (fun o => o.getD 0) := by
      rw [List.map_map]
      apply List.map_congr_left
      intro m hm
      simp [hpar m hm]
    rw [hrest]
    refine List.Perm.cons _ ?_
    refine (hidx.map (fun o => o.getD 0)).trans ?_
    rw [List.map_map, map_getD_comp_some]
  refine ⟨?_, hL1idx, ?_, ?_, ?_, hL2idx⟩
  · have := hL1idx.length_eq
    simpa using this
  · rw [hL1idx.nodup_iff]
    exact List.nodup_range' 1 N
  · intro i hi
    have := hL1idx.mem_iff.mp hi
    have h2 := List.mem_range'_1.mp this
    omega
  · have := hL2idx.length_eq
    simpa using this

/-- Witness for the amended C6 at a fully ingested two-patch series. -/
theorem series_listing_after_full_ingest_witness :
    (((("cov@x").toList) : Str).isEmpty = false
     ∧ ([({ message_id_header := ("p2@x").toList, subject := ("[PATCH 2/2] B").toList, is_patch := true, is_series_patch := true, patch_index := some 2, patch_total := some 2, series_message_id := some (("cov@x").toList), received_at := some 3 } : FeedMessage), { message_id_header := ("cov@x").toList, subject := ("[PATCH 0/2] series X").toList, is_patch := true, is_series_patch := true, is_cover_letter := true, patch_index := some 0, patch_total := some 2, series_message_id := some (("cov@x").toList), received_at := some 1 }, { message_id_header := ("p1@x").toList, subject := ("[PATCH 1/2] A").toList, is_patch := true, is_series_patch := true, patch_index := some 1, patch_total := some 2, series_message_id := some (("cov@x").toList), received_at := some 2 }]).filter (fun m => m.message_id_header == (("cov@x").toList)) = [({ message_id_header := ("cov@x").toList, subject := ("[PATCH 0/2] series X").toList, is_patch := true, is_series_patch := true, is_cover_letter := true, patch_index := some 0, patch_total := some 2, series_message_id := some (("cov@x").toList), received_at := some 1 } : FeedMessage)]
     ∧ ({ message_id_header := ("cov@x").toList, subject := ("[PATCH 0/2] series X").toList, is_patch := true, is_series_patch := true, is_cover_letter := true, patch_index := some 0, patch_total := some 2, series_message_id := some (("cov@x").toList), received_at := some 1 } : FeedMessage).series_message_id = some (("cov@x").toList)
     ∧ ({ message_id_header := ("cov@x").toList, subject := ("[PATCH 0/2] series X").toList, is_patch := true, is_series_patch := true, is_cover_letter := true, patch_index := some 0, patch_total := some 2, series_message_id := some (("cov@x").toList), received_at := some 1 } : FeedMessage).is_patch = true
     ∧ (parse_patch_subject ({ message_id_header := ("cov@x").toList, subject := ("[PATCH 0/2] series X").toList, is_patch := true, is_series_patch := true, is_cover_letter := true, patch_index := some 0, patch_total := some 2, series_message_id := some (("cov@x").toList), received_at := some 1 } : FeedMessage).subject).index = some 0
     ∧ ((([({ message_id_header := ("p2@x").toList, subject := ("[PATCH 2/2] B").toList, is_patch := true, is_series_patch := true, patch_index := some 2, patch_total := some 2, series_message_id := some (("cov@x").toList), received_at := some 3 } : FeedMessage), { message_id_header := ("cov@x").toList, subject := ("[PATCH 0/2] series X").toList, is_patch := true, is_series_patch := true, is_cover_letter := true, patch_index := some 0, patch_total := some 2, series_message_id := some (("cov@x").toList), received_at := some 1 }, { message_id_header := ("p1@x").toList, subject := ("[PATCH 1/2] A").toList, is_patch := true, is_series_patch := true, patch_index := some 1, patch_total := some 2, series_message_id := some (("cov@x").toList), received_at := some 2 }]).filter (fun m => m.series_message_id == some (("cov@x").toList) && m.message_id_header != (("cov@x").toList))).map (fun m => m.patch_index)).Perm ((List.range' 1 2).map some)
     ∧ (∀ m ∈ ([({ message_id_header := ("p2@x").toList, subject := ("[PATCH 2/2] B").toList, is_patch := true, is_series_patch := true, patch_index := some 2, patch_total := some 2, series_message_id := some (("cov@x").toList), received_at := some 3 } : FeedMessage), { message_id_header := ("cov@x").toList, subject := ("[PATCH 0/2] series X").toList, is_patch := true, is_series_patch := true, is_cover_letter := true, patch_index := some 0, patch_total := some 2, series_message_id := some (("cov@x").toList), received_at := some 1 }, { message_id_header := ("p1@x").toList, subject := ("[PATCH 1/2] A").toList, is_patch := true, is_series_patch := true, patch_index := some 1, patch_total := some 2, series_message_id := some (("cov@x").toList), received_at := some 2 }]).filter (fun m => m.series_message_id == some (("cov@x").toList) && m.message_id_header != (("cov@x").toList)), (parse_patch_subject m.subject).index = m.patch_index)
     ∧ (∀ m ∈ ([({ message_id_header := ("p2@x").toList, subject := ("[PATCH 2/2] B").toList, is_patch := true, is_series_patch := true, patch_index := some 2, patch_total := some 2, series_message_id := some (("cov@x").toList), received_at := some 3 } : FeedMessage), { message_id_header := ("cov@x").toList, subject := ("[PATCH 0/2] series X").toList, is_patch := true, is_series_patch := true, is_cover_letter := true, patch_index := some 0, patch_total := some 2, series_message_id := some (("cov@x").toList), received_at := some 1 }, { message_id_header := ("p1@x").toList, subject := ("[PATCH 1/2] A").toList, is_patch := true, is_series_patch := true, patch_index := some 1, patch_total := some 2, series_message_id := some (("cov@x").toList), received_at := some 2 }]).filter (fun m => m.series_message_id == some (("cov@x").toList) && m.message_id_header != (("cov@x").toList)), m.is_patch = true)
     ∧ ({ message_id_header := ("cov@x").toList, subject := ("[PATCH 0/2] series X").toList, is_patch := true, is_series_patch := true, is_cover_letter := true, patch_index := some 0, patch_total := some 2, series_message_id := some (("cov@x").toList), received_at := some 1 } : FeedMessage).is_cover_letter = true)
    ∧ ((get_series_patches_for_cover_letter ([({ message_id_header := ("p2@x").toList, subject := ("[PATCH 2/2] B").toList, is_patch := true, is_series_patch := true, patch_index := some 2, patch_total := some 2, series_message_id := some (("cov@x").toList), received_at := some 3 } : FeedMessage), { message_id_header := ("cov@x").toList, subject := ("[PATCH 0/2] series X").toList, is_patch := true, is_series_patch := true, is_cover_letter := true, patch_index := some 0, patch_total := some 2, series_message_id := some (("cov@x").toList), received_at := some 1 }, { message_id_header := ("p1@x").toList, subject := ("[PATCH 1/2] A").toList, is_patch := true, is_series_patch := true, patch_index := some 1, patch_total := some 2, series_message_id := some (("cov@x").toList), received_at := some 2 }]) ({ message_id_header := ("cov@x").toList, subject := ("[PATCH 0/2] series X").toList, is_patch := true, is_series_patch := true, is_cover_letter := true, patch_index := some 0, patch_total := some 2, series_message_id := some (("cov@x").toList), received_at := some 1 }) ({ message_id_header := ("cov@x").toList, subject := ("[PATCH 0/2] series X").toList, is_patch := true, is_series_patch := true, is_cover_letter := true, patch_index := some 0, patch_total := some 2, series_message_id := some (("cov@x").toList), received_at := some 1 }) (some (("cov@x").toList)) (some { is_patch := true, index := some 0, total := some 2, is_cover_letter := true } : Option PatchInfo)).length = 2
      ∧ ((get_series_patches_for_cover_letter ([({ message_id_header := ("p2@x").toList, subject := ("[PATCH 2/2] B").toList, is_patch := true, is_series_patch := true, patch_index := some 2, patch_total := some 2, series_message_id := some (("cov@x").toList), received_at := some 3 } : FeedMessage), { message_id_header := ("cov@x").toList, subject := ("[PATCH 0/2] series X").toList, is_patch := true, is_series_patch := true, is_cover_letter := true, patch_index := some 0, patch_total := some 2, series_message_id := some (("cov@x").toList), received_at := some 1 }, { message_id_header := ("p1@x").toList, subject := ("[PATCH 1/2] A").toList, is_patch := true, is_series_patch := true, patch_index := some 1, patch_total := some 2, series_message_id := some (("cov@x").toList), received_at := some 2 }]) ({ message_id_header := ("cov@x").toList, subject := ("[PATCH 0/2] series X").toList, is_patch := true, is_series_patch := true, is_cover_letter := true, patch_index := some 0, patch_total := some 2, series_message_id := some (("cov@x").toList), received_at := some 1 }) ({ message_id_header := ("cov@x").toList, subject := ("[PATCH 0/2] series X").toList, is_patch := true, is_series_patch := true, is_cover_letter := true, patch_index := some 0, patch_total := some 2, series_message_id := some (("cov@x").toList), received_at := some 1 }) (some (("cov@x").toList)) (some { is_patch := true, index := some 0, total := some 2, is_cover_letter := true } : Option PatchInfo)).map (fun p => p.patch_index)).Perm (List.range' 1 2)
      ∧ ((get_series_patches_for_cover_letter ([({ message_id_header := ("p2@x").toList, subject := ("[PATCH 2/2] B").toList, is_patch := true, is_series_patch := true, patch_index := some 2, patch_total := some 2, series_message_id := some (("cov@x").toList), received_at := some 3 } : FeedMessage), { message_id_header := ("cov@x").toList, subject := ("[PATCH 0/2] series X").toList, is_patch := true, is_series_patch := true, is_cover_letter := true, patch_index := some 0, patch_total := some 2, series_message_id := some (("cov@x").toList), received_at := some 1 }, { message_id_header := ("p1@x").toList, subject := ("[PATCH 1/2] A").toList, is_patch := true, is_series_patch := true, patch_index := some 1, patch_total := some 2, series_message_id := some (("cov@x").toList), received_at := some 2 }]) ({ message_id_header := ("cov@x").toList, subject := ("[PATCH 0/2] series X").toList, is_patch := true, is_series_patch := true, is_cover_letter := true, patch_index := some 0, patch_total := some 2, series_message_id := some (("cov@x").toList), received_at := some 1 }) ({ message_id_header := ("cov@x").toList, subject := ("[PATCH 0/2] series X").toList, is_patch := true, is_series_patch := true, is_cover_letter := true, patch_index := some 0, patch_total := some 2, series_message_id := some (("cov@x").toList), received_at := some 1 }) (some (("cov@x").toList)) (some { is_patch := true, index := some 0, total := some 2, is_cover_letter := true } : Option PatchInfo)).map (fun p => p.patch_index)).Nodup
      ∧ (∀ i ∈ (get_series_patches_for_cover_letter ([({ message_id_header := ("p2@x").toList, subject := ("[PATCH 2/2] B").toList, is_patch := true, is_series_patch := true, patch_index := some 2, patch_total := some 2, series_message_id := some (("cov@x").toList), received_at := some 3 } : FeedMessage), { message_id_header := ("cov@x").toList, subject := ("[PATCH 0/2] series X").toList, is_patch := true, is_series_patch := true, is_cover_letter := true, patch_index := some 0, patch_total := some 2, series_message_id := some (("cov@x").toList), received_at := some 1 }, { message_id_header := ("p1@x").toList, subject := ("[PATCH 1/2] A").toList, is_patch := true, is_series_patch := true, patch_index := some 1, patch_total := some 2, series_message_id := some (("cov@x").toList), received_at := some 2 }]) ({ message_id_header := ("cov@x").toList, subject := ("[PATCH 0/2] series X").toList, is_patch := true, is_series_patch := true, is_cover_letter := true, patch_index := some 0, patch_total := some 2, series_message_id := some (("cov@x").toList), received_at := some 1 }) ({ message_id_header := ("cov@x").toList, subject := ("[PATCH 0/2] series X").toList, is_patch := true, is_series_patch := true, is_cover_letter := true, patch_index := some 0, patch_total := some 2, series_message_id := some (("cov@x").toList), received_at := some 1 }) (some (("cov@x").toList)) (some { is_patch := true, index := some 0, total := some 2, is_cover_letter := true } : Option PatchInfo)).map (fun p => p.patch_index), 1 ≤ i ∧ i ≤ 2)
      ∧ (get_series_patches ([({ message_id_header := ("p2@x").toList, subject := ("[PATCH 2/2] B").toList, is_patch := true, is_series_patch := true, patch_index := some 2, patch_total := some 2, series_message_id := some (("cov@x").toList), received_at := some 3 } : FeedMessage), { message_id_header := ("cov@x").toList, subject := ("[PATCH 0/2] series X").toList, is_patch := true, is_series_patch := true, is_cover_letter := true, patch_index := some 0, patch_total := some 2, series_message_id := some (("cov@x").toList), received_at := some 1 }, { message_id_header := ("p1@x").toList, subject := ("[PATCH 1/2] A").toList, is_patch := true, is_series_patch := true, patch_index := some 1, patch_total := some 2, series_message_id := some (("cov@x").toList), received_at := some 2 }]) (("cov@x").toList)).length = 2 + 1
      ∧ ((get_series_patches ([({ message_id_header := ("p2@x").toList, subject := ("[PATCH 2/2] B").toList, is_patch := true, is_series_patch := true, patch_index := some 2, patch_total := some 2, series_message_id := some (("cov@x").toList), received_at := some 3 } : FeedMessage), { message_id_header := ("cov@x").toList, subject := ("[PATCH 0/2] series X").toList, is_patch := true, is_series_patch := true, is_cover_letter := true, patch_index := some 0, patch_total := some 2, series_message_id := some (("cov@x").toList), received_at := some 1 }, { message_id_header := ("p1@x").toList, subject := ("[PATCH 1/2] A").toList, is_patch := true, is_series_patch := true, patch_index := some 1, patch_total := some 2, series_message_id := some (("cov@x").toList), received_at := some 2 }]) (("cov@x").toList)).map (fun p => p.patch_index)).Perm (0 :: List.range' 1 2)) :=
  ⟨⟨by decide, by decide, by decide, by decide, by decide, by decide,
    by decide, by decide, by decide⟩,
    series_listing_after_full_ingest ([({ message_id_header := ("p2@x").toList, subject := ("[PATCH 2/2] B").toList, is_patch := true, is_series_patch := true, patch_index := some 2, patch_total := some 2, series_message_id := some (("cov@x").toList), received_at := some 3 } : FeedMessage), { message_id_header := ("cov@x").toList, subject := ("[PATCH 0/2] series X").toList, is_patch := true, is_series_patch := true, is_cover_letter := true, patch_index := some 0, patch_total := some 2, series_message_id := some (("cov@x").toList), received_at := some 1 }, { message_id_header := ("p1@x").toList, subject := ("[PATCH 1/2] A").toList, is_patch := true, is_series_patch := true, patch_index := some 1, patch_total := some 2, series_message_id := some (("cov@x").toList), received_at := some 2 }]) (("cov@x").toList) 2 ({ message_id_header := ("cov@x").toList, subject := ("[PATCH 0/2] series X").toList, is_patch := true, is_series_patch := true, is_cover_letter := true, patch_index := some 0, patch_total := some 2, series_message_id := some (("cov@x").toList), received_at := some 1 }) ({ message_id_header := ("cov@x").toList, subject := ("[PATCH 0/2] series X").toList, is_patch := true, is_series_patch := true, is_cover_letter := true, patch_index := some 0, patch_total := some 2, series_message_id := some (("cov@x").toList), received_at := some 1 })
      ((some { is_patch := true, index := some 0, total := some 2, is_cover_letter := true } : Option PatchInfo)) (by decide) (by decide) (by decide) (by decide) (by decide)
      (by decide) (by decide) (by decide) (by decide)⟩

/-- Inserting a fresh key appends it to the key sequence of the map. -/
theorem assocInsert_keys (m : List (Str × ReplyMapEntry)) (k : Str)
    (v : ReplyMapEntry) (h : ¬ k ∈ m.map (fun p => p.1)) :
    (assocInsert m k v).map (fun p => p.1) = m.map (fun p => p.1) ++ [k] := by
  induction m with
  | nil => rfl
  | cons p t ih =>
    rw [List.map_cons] at h
    have h1 : ¬ k = p.1 := fun he => h (by rw [he]; exact List.mem_cons_self _ _)
    have h2 : ¬ k ∈ t.map (fun p => p.1) :=
      fun he => h (List.mem_cons_of_mem _ he)
    have hk : (p.1 == k) = false :=
      beq_eq_false_iff_ne.mpr (fun he => h1 he.symm)
    simp only [assocInsert, hk, Bool.false_eq_true, if_false, List.map_cons,
      ih h2, List.cons_append]

/-- Folding `assocInsert` over replies with pairwise-distinct ids yields the
ids in order. -/
theorem foldl_assocInsert_keys (rs : List FeedMessage)
    (m : List (Str × ReplyMapEntry))
    (h : (m.map (fun p => p.1)
        ++ rs.map (fun r => r.message_id_header)).Nodup) :
    (rs.foldl (fun m r => assocInsert m r.message_id_header { reply := r })
        m).map (fun p => p.1)
      = m.map (fun p => p.1) ++ rs.map (fun r => r.message_id_header) := by
  induction rs generalizing m with
  | nil => simp
  | cons r rs ih =>
    rw [List.foldl_cons]
    rw [List.map_cons] at h ⊢
    have hnotin : ¬ r.message_id_header ∈ m.map (fun p => p.1) := by
      intro hin
      exact (List.disjoint_of_nodup_append h) hin (List.mem_cons_self _ _)
    have hkeys := assocInsert_keys m r.message_id_header { reply := r } hnotin
    have h2 : ((assocInsert m r.message_id_header { reply := r }).map
        (fun p => p.1) ++ rs.map (fun r => r.message_id_header)).Nodup := by
      rw [hkeys, List.append_assoc, List.singleton_append]
      exact h
    rw [ih _ h2, hkeys, List.append_assoc, List.singleton_append]

/-- With pairwise-distinct reply ids, the reply map of the first loop holds
exactly those ids, in insertion order. -/
theorem initial_reply_map_keys (replies : List FeedMessage)
    (h : (replies.map (fun r => r.message_id_header)).Nodup) :
    (initial_reply_map replies).map (fun p => p.1)
      = replies.map (fun r => r.message_id_header) := by
  unfold initial_reply_map
  have h0 : (([] : List (Str × ReplyMapEntry)).map (fun p => p.1)
      ++ replies.map (fun r => r.message_id_header)).Nodup := by
    simpa using h
  simpa using foldl_assocInsert_keys replies [] h0

/-- The root accumulator of the assignment loop collects exactly the ids of
the replies whose parent resolution fails, in list order. -/
theorem assign_replies_snd (store : Str → Option FeedMessage) (P : Str)
    (keys : List Str) (rs : List FeedMessage)
    (m : List (Str × ReplyMapEntry)) (acc : List Str) :
    (assign_replies store P keys rs m acc).2
      = acc ++ (rs.filter
          (fun r => (parent_for_reply store keys P r).isNone)).map
        (fun r => r.message_id_header) := by
  induction rs generalizing m acc with
  | nil => simp [assign_replies]
  | cons r rs ih =>
    unfold assign_replies
    cases hp : parent_for_reply store keys P r with
    | none =>
      rw [ih, List.filter_cons_of_pos (by simp [hp]), List.map_cons,
        List.append_assoc, List.singleton_append]
    | some p =>
      rw [ih, List.filter_cons_of_neg (by simp [hp])]

/-- Looking a key up after sorting every entry's children finds the same
reply. -/
theorem assocLookup_map_children (m : List (Str × ReplyMapEntry))
    (r : Str → Str → Prop) [DecidableRel r] (rid : Str) :
    assocLookup (m.map (fun p => (p.1,
        { reply := p.2.reply,
          children := List.insertionSort r p.2.children }))) rid
      = (assocLookup m rid).map (fun e =>
          ({ reply := e.reply,
             children := List.insertionSort r e.children }
            : ReplyMapEntry)) := by
  induction m with
  | nil => rfl
  | cons p t ih =>
    unfold assocLookup at ih ⊢
    rw [List.map_cons]
    cases hk : (p.1 == rid) with
    | true =>
      rw [List.find?_cons_of_pos _ (by exact hk),
        List.find?_cons_of_pos _ (by exact hk)]
      rfl
    | false =>
      rw [List.find?_cons_of_neg _ (by simp [hk]),
        List.find?_cons_of_neg _ (by simp [hk])]
      exact ih

/-- The sort key is unchanged by sorting children lists. -/
theorem reply_time_key_map_children (m : List (Str × ReplyMapEntry))
    (r : Str → Str → Prop) [DecidableRel r] (rid : Str) :
    reply_time_key (m.map (fun p => (p.1,
        { reply := p.2.reply,
          children := List.insertionSort r p.2.children }))) rid
      = reply_time_key m rid := by
  unfold reply_time_key
  rw [assocLookup_map_children]
  cases assocLookup m rid <;> rfl

/-- The root decision of the second loop, spelled out: a reply becomes a
root exactly when its header is absent, unextractable, directly names the
patch (equality or substring), or the bounded chain search of depth 5 finds
no parent. -/
theorem parent_for_reply_eq_none_iff (store : Str → Option FeedMessage)
    (keys : List Str) (P : Str) (r : FeedMessage) :
    parent_for_reply store keys P r = none
    ↔ (optFalsy r.in_reply_to_header = true
      ∨ extract_message_id_from_header r.in_reply_to_header = none
      ∨ ∃ ex, extract_message_id_from_header r.in_reply_to_header = some ex
          ∧ ((ex == P || substr P ex) = true
            ∨ find_parent_reply_in_list store keys P 5 r.in_reply_to_header
              = none)) := by
  unfold parent_for_reply
  cases hf : optFalsy r.in_reply_to_header with
  | true => simp [hf]
  | false =>
    simp only [hf, Bool.false_eq_true, if_false]
    cases he : extract_message_id_from_header r.in_reply_to_header with
    | none => simp [he]
    | some ex =>
      simp only [he]
      cases hd : (ex == P || substr P ex) with
      | true =>
        simp only [hd, if_true]
        simp
        rcases (Bool.or_eq_true _ _).mp hd with h1 | h1
        · exact Or.inl (Or.inl (eq_of_beq h1))
        · exact Or.inl (Or.inr h1)
      | false =>
        simp [hd]
        intro hcontra
        exfalso
        rcases hcontra with h1 | h1
        · rw [h1] at hd
          simp at hd
        · rw [h1] at hd
          simp at hd

/-- C7: given pairwise-distinct reply ids, `build_reply_hierarchy_internal`
makes a reply a root exactly when its `in_reply_to_header` is absent or
unextractable, or the extracted parent equals the patch id or contains it,
or the bounded chain search (depth 5) resolves no parent; and the root list
and every child list come out sorted by the replies' `received_at`
ascending (absent times sort first). -/
theorem reply_hierarchy_roots_and_sorting (store : Str → Option FeedMessage)
    (replies : List FeedMessage) (P : Str)
    (hnd : (replies.map (fun r => r.message_id_header)).Nodup) :
    (∀ rid, rid ∈ (build_reply_hierarchy_internal store replies P).root_replies
      ↔ ∃ r ∈ replies, r.message_id_header = rid
        ∧ (optFalsy r.in_reply_to_header = true
          ∨ extract_message_id_from_header r.in_reply_to_header = none
          ∨ ∃ ex, extract_message_id_from_header r.in_reply_to_header
              = some ex
            ∧ ((ex == P || substr P ex) = true
              ∨ find_parent_reply_in_list store
                  (replies.map (fun r => r.message_id_header)) P 5
                  r.in_reply_to_header = none)))
    ∧ ((build_reply_hierarchy_internal store replies P).root_replies).Sorted
        (byReplyTime (build_reply_hierarchy_internal store replies P).reply_map)
    ∧ ∀ p ∈ (build_reply_hierarchy_internal store replies P).reply_map,
        (p.2.children).Sorted
          (byReplyTime
            (build_reply_hierarchy_internal store replies P).reply_map) := by
  have hkeys : (initial_reply_map replies).map (fun p => p.1)
      = replies.map (fun r => r.message_id_header) :=
    initial_reply_map_keys replies hnd
  simp only [build_reply_hierarchy_internal]
  rw [hkeys]
  refine ⟨?_, ?_, ?_⟩
  · intro rid
    rw [List.mem_insertionSort, assign_replies_snd, List.nil_append]
    constructor
    · intro h
      rw [List.mem_map] at h
      obtain ⟨r, hr, hrid⟩ := h
      have hf := List.mem_filter.mp hr
      refine ⟨r, hf.1, hrid, ?_⟩
      have h2 : parent_for_reply store
          (replies.map (fun r => r.message_id_header)) P r = none := by
        have := hf.2
        rwa [Option.isNone_iff_eq_none] at this
      exact (parent_for_reply_eq_none_iff store _ P r).mp h2
    · rintro ⟨r, hr, hmid, hcond⟩
      apply List.mem_map.mpr
      refine ⟨r, List.mem_filter.mpr ⟨hr, ?_⟩, hmid⟩
      rw [Option.isNone_iff_eq_none]
      exact (parent_for_reply_eq_none_iff store _ P r).mpr hcond
  · have hs := List.sorted_insertionSort
      (byReplyTime (assign_replies store P
        (replies.map (fun r => r.message_id_header)) replies
        (initial_reply_map replies) []).1)
      (assign_replies store P (replies.map (fun r => r.message_id_header))
        replies (initial_reply_map replies) []).2
    refine hs.imp ?_
    intro a b hab
    unfold byReplyTime at hab ⊢
    rw [reply_time_key_map_children, reply_time_key_map_children]
    exact hab
  · intro p hp
    rw [List.mem_map] at hp
    obtain ⟨q, hq, hpq⟩ := hp
    have hchild : p.2.children = List.insertionSort
        (byReplyTime (assign_replies store P
          (replies.map (fun r => r.message_id_header)) replies
          (initial_reply_map replies) []).1) q.2.children := by
      rw [← hpq]
    rw [hchild]
    have hs := List.sorted_insertionSort
      (byReplyTime (assign_replies store P
        (replies.map (fun r => r.message_id_header)) replies
        (initial_reply_map replies) []).1) q.2.children
    refine hs.imp ?_
    intro a b hab
    unfold byReplyTime at hab ⊢
    rw [reply_time_key_map_children, reply_time_key_map_children]
    exact hab

/-- Witness for C7 at a concrete three-reply thread. -/
theorem reply_hierarchy_roots_and_sorting_witness :
    (([({ message_id_header := ("r1@x").toList, in_reply_to_header := some (("<P@x>").toList), received_at := some 30 } : FeedMessage), { message_id_header := ("r2@x").toList, in_reply_to_header := some (("<r1@x>").toList), received_at := some 20 }, { message_id_header := ("r3@x").toList, received_at := some 10 }]).map (fun r => r.message_id_header)).Nodup
    ∧ ((∀ rid,
        rid ∈ (build_reply_hierarchy_internal (fun _ => (none : Option FeedMessage)) ([({ message_id_header := ("r1@x").toList, in_reply_to_header := some (("<P@x>").toList), received_at := some 30 } : FeedMessage), { message_id_header := ("r2@x").toList, in_reply_to_header := some (("<r1@x>").toList), received_at := some 20 }, { message_id_header := ("r3@x").toList, received_at := some 10 }]) (("P@x").toList)).root_replies
        ↔ ∃ r ∈ ([({ message_id_header := ("r1@x").toList, in_reply_to_header := some (("<P@x>").toList), received_at := some 30 } : FeedMessage), { message_id_header := ("r2@x").toList, in_reply_to_header := some (("<r1@x>").toList), received_at := some 20 }, { message_id_header := ("r3@x").toList, received_at := some 10 }]), r.message_id_header = rid
          ∧ (optFalsy r.in_reply_to_header = true
            ∨ extract_message_id_from_header r.in_reply_to_header = none
            ∨ ∃ ex, extract_message_id_from_header r.in_reply_to_header = some ex
              ∧ ((ex == (("P@x").toList) || substr (("P@x").toList) ex) = true
                ∨ find_parent_reply_in_list (fun _ => (none : Option FeedMessage)) (([({ message_id_header := ("r1@x").toList, in_reply_to_header := some (("<P@x>").toList), received_at := some 30 } : FeedMessage), { message_id_header := ("r2@x").toList, in_reply_to_header := some (("<r1@x>").toList), received_at := some 20 }, { message_id_header := ("r3@x").toList, received_at := some 10 }]).map (fun r => r.message_id_header)) (("P@x").toList) 5 r.in_reply_to_header = none)))
      ∧ ((build_reply_hierarchy_internal (fun _ => (none : Option FeedMessage)) ([({ message_id_header := ("r1@x").toList, in_reply_to_header := some (("<P@x>").toList), received_at := some 30 } : FeedMessage), { message_id_header := ("r2@x").toList, in_reply_to_header := some (("<r1@x>").toList), received_at := some 20 }, { message_id_header := ("r3@x").toList, received_at := some 10 }]) (("P@x").toList)).root_replies).Sorted
          (byReplyTime (build_reply_hierarchy_internal (fun _ => (none : Option FeedMessage)) ([({ message_id_header := ("r1@x").toList, in_reply_to_header := some (("<P@x>").toList), received_at := some 30 } : FeedMessage), { message_id_header := ("r2@x").toList, in_reply_to_header := some (("<r1@x>").toList), received_at := some 20 }, { message_id_header := ("r3@x").toList, received_at := some 10 }]) (("P@x").toList)).reply_map)
      ∧ ∀ p ∈ (build_reply_hierarchy_internal (fun _ => (none : Option FeedMessage)) ([({ message_id_header := ("r1@x").toList, in_reply_to_header := some (("<P@x>").toList), received_at := some 30 } : FeedMessage), { message_id_header := ("r2@x").toList, in_reply_to_header := some (("<r1@x>").toList), received_at := some 20 }, { message_id_header := ("r3@x").toList, received_at := some 10 }]) (("P@x").toList)).reply_map,
          (p.2.children).Sorted
            (byReplyTime (build_reply_hierarchy_internal (fun _ => (none : Option FeedMessage)) ([({ message_id_header := ("r1@x").toList, in_reply_to_header := some (("<P@x>").toList), received_at := some 30 } : FeedMessage), { message_id_header := ("r2@x").toList, in_reply_to_header := some (("<r1@x>").toList), received_at := some 20 }, { message_id_header := ("r3@x").toList, received_at := some 10 }]) (("P@x").toList)).reply_map)) :=
  ⟨by decide,
    reply_hierarchy_roots_and_sorting (fun _ => (none : Option FeedMessage)) ([({ message_id_header := ("r1@x").toList, in_reply_to_header := some (("<P@x>").toList), received_at := some 30 } : FeedMessage), { message_id_header := ("r2@x").toList, in_reply_to_header := some (("<r1@x>").toList), received_at := some 20 }, { message_id_header := ("r3@x").toList, received_at := some 10 }]) (("P@x").toList) (by decide)⟩

/-- The digit characters of values below ten are decimal digits. -/
theorem digitChar_isDigit (d : Nat) (h : d < 10) :
    (digitChar d).isDigit = true := by
  interval_cases d <;> decide

/-- Value of a digit character below ten. -/
theorem digitChar_val (d : Nat) (h : d < 10) :
    (digitChar d).toNat - 48 = d := by
  interval_cases d <;> decide

/-- The digit string of a natural is nonempty. -/
theorem natDigits_ne_nil (n : Nat) : natDigits n ≠ [] := by
  unfold natDigits
  by_cases h : n < 10
  · simp [h]
  · simp [h]

/-- Every character of a digit string is a decimal digit. -/
theorem natDigits_all_digit (n : Nat) :
    ∀ c ∈ natDigits n, c.isDigit = true := by
  induction n using Nat.strong_induction_on with
  | _ n ih =>
    unfold natDigits
    by_cases h : n < 10
    · simp only [h, dif_pos]
      intro c hc
      rw [List.mem_singleton] at hc
      subst hc
      exact digitChar_isDigit n h
    · simp only [h, dif_neg, not_false_iff]
      intro c hc
      rcases List.mem_append.mp hc with h1 | h1
      · exact ih (n / 10) (Nat.div_lt_self (by omega) (by omega)) c h1
      · rw [List.mem_singleton] at h1
        subst h1
        exact digitChar_isDigit (n % 10) (Nat.mod_lt _ (by omega))

/-- Appending one digit character multiplies the value by ten. -/
theorem digitsVal_append_digit (ds : Str) (c : Char) :
    digitsVal (ds ++ [c]) = 10 * digitsVal ds + (c.toNat - 48) := by
  unfold digitsVal
  rw [List.foldl_append]
  rfl

/-- Reading back the digit string of a natural returns the natural. -/
theorem digitsVal_natDigits (n : Nat) : digitsVal (natDigits n) = n := by
  induction n using Nat.strong_induction_on with
  | _ n ih =>
    unfold natDigits
    by_cases h : n < 10
    · simp only [h, dif_pos]
      have h1 := digitChar_val n h
      unfold digitsVal
      simp only [List.foldl_cons, List.foldl_nil]
      omega
    · simp only [h, dif_neg, not_false_iff]
      rw [digitsVal_append_digit,
        ih (n / 10) (Nat.div_lt_self (by omega) (by omega)),
        digitChar_val (n % 10) (Nat.mod_lt _ (by omega))]
      omega

/-- A decimal digit differs from any non-digit character. -/
theorem digit_beq_nondigit (c d : Char) (h : c.isDigit = true)
    (hd : d.isDigit = false) : (c == d) = false :=
  beq_eq_false_iff_ne.mpr (fun he => by rw [he, hd] at h; cases h)

/-- Digits are word characters. -/
theorem isWordC_of_isDigit (c : Char) (h : c.isDigit = true) :
    isWordC c = true := by
  simp [isWordC, Char.isAlphanum, h]

/-- `takeWhile` passes over a block that satisfies the predicate. -/
theorem takeWhile_append_all (p : Char → Bool) (xs ys : Str)
    (h : ∀ x ∈ xs, p x = true) :
    (xs ++ ys).takeWhile p = xs ++ ys.takeWhile p := by
  induction xs with
  | nil => rfl
  | cons x t ih =>
    have hx := h x (List.mem_cons_self _ _)
    simp only [List.cons_append, List.takeWhile_cons, hx, if_true]
    rw [ih (fun y hy => h y (List.mem_cons_of_mem _ hy))]

/-- `dropWhile` drops a block that satisfies the predicate. -/
theorem dropWhile_append_all (p : Char → Bool) (xs ys : Str)
    (h : ∀ x ∈ xs, p x = true) :
    (xs ++ ys).dropWhile p = ys.dropWhile p := by
  induction xs with
  | nil => rfl
  | cons x t ih =>
    have hx := h x (List.mem_cons_self _ _)
    simp only [List.cons_append, List.dropWhile_cons, hx, if_true]
    exact ih (fun y hy => h y (List.mem_cons_of_mem _ hy))

/-- `takeWhile` keeps a list all of whose elements satisfy the predicate. -/
theorem takeWhile_all (p : Char → Bool) (l : Str)
    (h : ∀ x ∈ l, p x = true) : l.takeWhile p = l := by
  induction l with
  | nil => rfl
  | cons x t ih =>
    simp only [List.takeWhile_cons, h x (List.mem_cons_self _ _), if_true]
    rw [ih (fun y hy => h y (List.mem_cons_of_mem _ hy))]

/-- `dropWhile` empties a list all of whose elements satisfy the
predicate. -/
theorem dropWhile_all (p : Char → Bool) (l : Str)
    (h : ∀ x ∈ l, p x = true) : l.dropWhile p = [] := by
  induction l with
  | nil => rfl
  | cons x t ih =>
    simp only [List.dropWhile_cons, h x (List.mem_cons_self _ _), if_true]
    exact ih (fun y hy => h y (List.mem_cons_of_mem _ hy))

/-- The digit string of a natural is never the empty string. -/
theorem natDigits_isEmpty (n : Nat) : (natDigits n).isEmpty = false := by
  cases h : natDigits n with
  | nil => exact absurd h (natDigits_ne_nil n)
  | cons a l => rfl

/-- Splitting at the first `']'` cuts exactly at a `']'` that follows a
bracket-free block. -/
theorem splitAtRBracket_append (xs r : Str) (h : ¬ ']' ∈ xs) :
    splitAtRBracket (xs ++ ']' :: r) = some (xs, r) := by
  induction xs with
  | nil => simp [splitAtRBracket]
  | cons c t ih =>
    have hc : ¬ c = ']' := fun he => h (by rw [he]; exact List.mem_cons_self _ _)
    have ht : ¬ ']' ∈ t := fun he => h (List.mem_cons_of_mem _ he)
    simp [splitAtRBracket, hc, ih ht]

/-- A string starting with the needle contains it. -/
theorem substr_of_starts (n h : Str) (hp : List.isPrefixOf n h = true) :
    substr n h = true := by
  cases h with
  | nil =>
    cases n with
    | nil => rfl
    | cons a l => simp [List.isPrefixOf] at hp
  | cons c t => simp [substr, hp]

/-- Containment is preserved by prepending a character. -/
theorem substr_cons_right (n : Str) (c : Char) (t : Str)
    (h : substr n t = true) : substr n (c :: t) = true := by
  simp [substr, h]

/-- A concrete prefix block stays a prefix of any extension. -/
theorem isPrefixOf_append_right (n xs ys : Str)
    (h : List.isPrefixOf n xs = true) :
    List.isPrefixOf n (xs ++ ys) = true := by
  induction n generalizing xs with
  | nil => simp [List.isPrefixOf]
  | cons a l ih =>
    cases xs with
    | nil => simp [List.isPrefixOf] at h
    | cons b t =>
      simp only [List.isPrefixOf, Bool.and_eq_true] at h
      simp only [List.cons_append, List.isPrefixOf, Bool.and_eq_true]
      exact ⟨h.1, ih t h.2⟩

/-- The version scan steps over a character that cannot start a match. -/
theorem findVersion_skip (prev : Option Char) (c : Char) (cs : Str)
    (h : ((c == 'v' || c == 'V') && !(isWordOpt prev)) = false) :
    findVersion prev (c :: cs) = findVersion (some c) cs := by
  simp only [findVersion, h, Bool.false_eq_true, if_false]

/-- The version scan matches `v` followed by a maximal digit run at word
boundaries. -/
theorem findVersion_hit (prev : Option Char) (ds rest : Str)
    (hprev : isWordOpt prev = false) (hne : ds.isEmpty = false)
    (ht : (ds ++ rest).takeWhile Char.isDigit = ds)
    (hd : (ds ++ rest).dropWhile Char.isDigit = rest)
    (hw : headIsWord rest = false) :
    findVersion prev ('v' :: (ds ++ rest)) = some ds := by
  simp only [findVersion, hprev, ht, hd, hne, hw]
  simp

/-- The index/total scan steps over a character that cannot start a
match. -/
theorem findIndexTotal_skip (prev : Option Char) (c : Char) (cs : Str)
    (h : (c.isDigit && !(isWordOpt prev)) = false) :
    findIndexTotal prev (c :: cs) = findIndexTotal (some c) cs := by
  simp only [findIndexTotal, h, Bool.false_eq_true, if_false]

/-- The index/total scan walks through a digit run preceded by a word
character without matching, ending behind some word character. -/
theorem findIndexTotal_skip_run (ds : Str) (rest : Str) (prev : Char)
    (hprev : isWordC prev = true) (hds : ∀ c ∈ ds, c.isDigit = true) :
    ∃ w, isWordC w = true
      ∧ findIndexTotal (some prev) (ds ++ rest)
        = findIndexTotal (some w) rest := by
  induction ds generalizing prev with
  | nil => exact ⟨prev, hprev, rfl⟩
  | cons c t ih =>
    have hc := hds c (List.mem_cons_self _ _)
    have hskip : findIndexTotal (some prev) ((c :: t) ++ rest)
        = findIndexTotal (some c) (t ++ rest) := by
      apply findIndexTotal_skip
      simp [isWordOpt, hprev]
    rw [hskip]
    exact ih c (isWordC_of_isDigit c hc)
      (fun x hx => hds x (List.mem_cons_of_mem _ hx))

/-- The index/total scan matches two digit runs around a slash at word
boundaries. -/
theorem findIndexTotal_hit (prev : Option Char) (d1 d2 : Str)
    (hprev : isWordOpt prev = false)
    (h1 : ∀ c ∈ d1, c.isDigit = true) (h1ne : d1 ≠ [])
    (h2 : ∀ c ∈ d2, c.isDigit = true) (h2ne : d2.isEmpty = false) :
    findIndexTotal prev (d1 ++ '/' :: d2)
      = some (digitsVal d1, digitsVal d2) := by
  cases d1 with
  | nil => exact absurd rfl h1ne
  | cons c cs =>
    have hc := h1 c (List.mem_cons_self _ _)
    have hcs : ∀ x ∈ cs, x.isDigit = true :=
      fun x hx => h1 x (List.mem_cons_of_mem _ hx)
    have hdw : (cs ++ '/' :: d2).dropWhile Char.isDigit = '/' :: d2 := by
      rw [dropWhile_append_all Char.isDigit cs _ hcs]
      rfl
    have htw : (cs ++ '/' :: d2).takeWhile Char.isDigit = cs := by
      rw [takeWhile_append_all Char.isDigit cs _ hcs]
      simp [List.takeWhile_cons]
    have ht2 : d2.takeWhile Char.isDigit = d2 := takeWhile_all _ _ h2
    have hd2 : d2.dropWhile Char.isDigit = [] := dropWhile_all _ _ h2
    rw [List.cons_append]
    unfold findIndexTotal
    rw [if_pos (by rw [hc, hprev]; rfl)]
    rw [hdw]
    simp only [ht2, hd2, htw, headIsWord, h2ne, Bool.not_false, Bool.and_self,
      if_true]

/-- The bracket search of `parse_patch_subject` applied to a rendered
subject returns the bracket body `PATCH v<dv> <di>/<dt>`. -/
theorem rendered_bracket_content (v i t : Nat) (rest : Str) :
    firstBracketPatchContent (render_subject v i t rest)
      = some (("PATCH v").toList ++ (natDigits v
          ++ (' ' :: (natDigits i ++ ('/' :: natDigits t))))) := by
  have hnb : ¬ (']' ∈ (("PATCH v").toList ++ (natDigits v
      ++ (' ' :: (natDigits i ++ ('/' :: natDigits t)))))) := by
    intro hm
    simp only [List.mem_append, List.mem_cons] at hm
    rcases hm with h | h | h | h | h | h
    · exact absurd h (by decide)
    · exact absurd (natDigits_all_digit v ']' h) (by decide)
    · exact absurd h (by decide)
    · exact absurd (natDigits_all_digit i ']' h) (by decide)
    · exact absurd h (by decide)
    · exact absurd (natDigits_all_digit t ']' h) (by decide)
  have hshape : render_subject v i t rest
      = '[' :: ((("PATCH v").toList ++ (natDigits v
          ++ (' ' :: (natDigits i ++ ('/' :: natDigits t))))) ++ (']' :: rest)) := by
    simp [render_subject]
  have hsplit := splitAtRBracket_append (("PATCH v").toList ++ (natDigits v
    ++ (' ' :: (natDigits i ++ ('/' :: natDigits t))))) rest hnb
  have hsubstr : substr (("patch").toList)
      (lowerStr (("PATCH v").toList ++ (natDigits v
        ++ (' ' :: (natDigits i ++ ('/' :: natDigits t)))))) = true := by
    apply substr_of_starts
    rfl
  rw [hshape]
  simp only [firstBracketPatchContent, hsplit, hsubstr, if_pos]

/-- The version search of `parse_patch_subject` applied to the rendered
bracket body finds the digits of `v`. -/
theorem rendered_version (v i t : Nat) :
    findVersion none (("PATCH v").toList ++ (natDigits v
        ++ (' ' :: (natDigits i ++ ('/' :: natDigits t)))))
      = some (natDigits v) := by
  show findVersion none ('P' :: 'A' :: 'T' :: 'C' :: 'H' :: ' ' :: 'v'
    :: (natDigits v ++ (' ' :: (natDigits i ++ ('/' :: natDigits t)))))
    = some (natDigits v)
  rw [findVersion_skip none 'P' _ rfl, findVersion_skip _ 'A' _ rfl,
    findVersion_skip _ 'T' _ rfl, findVersion_skip _ 'C' _ rfl,
    findVersion_skip _ 'H' _ rfl, findVersion_skip _ ' ' _ rfl]
  apply findVersion_hit
  · rfl
  · exact natDigits_isEmpty v
  · rw [takeWhile_append_all _ _ _ (natDigits_all_digit v)]
    have hsp : Char.isDigit ' ' = false := rfl
    simp [List.takeWhile_cons, hsp]
  · rw [dropWhile_append_all _ _ _ (natDigits_all_digit v)]
    have hsp : Char.isDigit ' ' = false := rfl
    simp [List.dropWhile_cons, hsp]
  · rfl

/-- The index/total search of `parse_patch_subject` applied to the rendered
bracket body recovers `(i, t)`. -/
theorem rendered_index_total (v i t : Nat) :
    findIndexTotal none (("PATCH v").toList ++ (natDigits v
        ++ (' ' :: (natDigits i ++ ('/' :: natDigits t)))))
      = some (i, t) := by
  show findIndexTotal none ('P' :: 'A' :: 'T' :: 'C' :: 'H' :: ' ' :: 'v'
    :: (natDigits v ++ (' ' :: (natDigits i ++ ('/' :: natDigits t)))))
    = some (i, t)
  rw [findIndexTotal_skip none 'P' _ rfl, findIndexTotal_skip _ 'A' _ rfl,
    findIndexTotal_skip _ 'T' _ rfl, findIndexTotal_skip _ 'C' _ rfl,
    findIndexTotal_skip _ 'H' _ rfl, findIndexTotal_skip _ ' ' _ rfl,
    findIndexTotal_skip _ 'v' _ rfl]
  obtain ⟨w, hw, heq⟩ := findIndexTotal_skip_run (natDigits v)
    (' ' :: (natDigits i ++ ('/' :: natDigits t))) 'v' rfl
    (natDigits_all_digit v)
  rw [heq, findIndexTotal_skip (some w) ' ' _ rfl,
    findIndexTotal_hit (some ' ') (natDigits i) (natDigits t) rfl
      (natDigits_all_digit i) (natDigits_ne_nil i) (natDigits_all_digit t)
      (natDigits_isEmpty t),
    digitsVal_natDigits, digitsVal_natDigits]

/-- Keyword gate of `parse_patch_subject` on a rendered subject: the
lowered subject contains the word `patch` and a bracket. -/
theorem rendered_keyword_gate (v i t : Nat) (rest : Str) :
    (substr (("patch").toList) (lowerStr (render_subject v i t rest))
      && (lowerStr (render_subject v i t rest)).contains '[') = true := by
  have hshape : render_subject v i t rest
      = '[' :: (("PATCH v").toList ++ (natDigits v
          ++ (' ' :: (natDigits i ++ ('/' :: (natDigits t
            ++ (']' :: rest))))))) := by
    simp [render_subject]
  rw [hshape, Bool.and_eq_true]
  constructor
  · apply substr_cons_right
    apply substr_of_starts
    rfl
  · rfl

/-- Evaluation of `parse_patch_subject` on a rendered subject. -/
theorem rendered_parse_eval (v i t : Nat) (rest : Str) :
    parse_patch_subject (render_subject v i t rest)
      = { is_patch := true, version := some ('v' :: natDigits v),
          index := some i, total := some t,
          is_cover_letter := i == 0 } := by
  have hgate := rendered_keyword_gate v i t rest
  simp only [parse_patch_subject, hgate, Bool.true_or, Bool.not_true,
    Bool.false_eq_true, if_false, rendered_bracket_content v i t rest,
    rendered_version v i t, rendered_index_total v i t]
  rfl

/-- C8: parsing the canonically rendered subject `[PATCH v<n> i/t] ...`
with `parse_patch_subject` recovers the version digit string, the index
`i` and the total `t` exactly, with `is_cover_letter` true precisely when
`i = 0`, for every `i ≤ t ≤ 99` (`render_subject` is modelled from the
spec, which names it without providing its code). -/
theorem render_parse_roundtrip (v i t : Nat) (rest : Str)
    (hit : i ≤ t) (ht99 : t ≤ 99) :
    (parse_patch_subject (render_subject v i t rest)).is_patch = true
    ∧ (parse_patch_subject (render_subject v i t rest)).version
        = some ('v' :: natDigits v)
    ∧ (parse_patch_subject (render_subject v i t rest)).index = some i
    ∧ (parse_patch_subject (render_subject v i t rest)).total = some t
    ∧ ((parse_patch_subject (render_subject v i t rest)).is_cover_letter
        = true ↔ i = 0) := by
  rw [rendered_parse_eval v i t rest]
  refine ⟨rfl, rfl, rfl, rfl, ?_⟩
  simp

/-- Concrete instance of the round-trip at `v = 3`, `i = 0`, `t = 25`. -/
theorem render_parse_roundtrip_witness :
    (parse_patch_subject (render_subject 3 0 25 ((" x").toList))).is_patch
        = true
    ∧ (parse_patch_subject (render_subject 3 0 25 ((" x").toList))).version
        = some ('v' :: natDigits 3)
    ∧ (parse_patch_subject (render_subject 3 0 25 ((" x").toList))).index
        = some 0
    ∧ (parse_patch_subject (render_subject 3 0 25 ((" x").toList))).total
        = some 25
    ∧ ((parse_patch_subject
          (render_subject 3 0 25 ((" x").toList))).is_cover_letter
        = true ↔ 0 = 0) :=
  render_parse_roundtrip 3 0 25 ((" x").toList) (by decide) (by decide)

end Lkml
